import Mathlib

/-!
Shallow embedding of the Excel import validation pipeline of
`src/excelImportParser.js` (constants from `excelImportTemplate.js`).

Modelling conventions:
  * A JavaScript value that can appear in a cell of the sheet matrices or
    inside a parsed JSON document is modelled by `JVal`.  The cell-grid
    source (the external `xlsx` library, called with `raw: false`,
    `defval: ""`, `blankrows: false`) delivers matrices of such values;
    the embedding starts from those matrices, i.e. a `Workbook` is the
    post-read named collection of 2-D cell matrices plus the sheet-name
    list, exactly the two pieces of `workbook` the parser consumes.
  * JavaScript numbers are modelled by `Rat`.  Every number the pipeline
    manipulates comes from `JSON.parse` or from `parseInt`/`parseFloat`,
    so it is finite; the decimal rendering of a number by `String(...)`
    is approximated by `ratToString` (no claim depends on it).
  * JavaScript objects are association lists in insertion order with
    set-or-replace update (`setAssoc`), mirroring property assignment and
    `Map.set`; `Set` objects are duplicate-free lists (`setAdd`).
  * The shared mutable issue accumulator is threaded explicitly: every
    parser takes the issue list and returns the extended list.
  * Quote characters that the source interpolates around identifiers in
    some messages are dropped from the message strings.
-/

/-- A JavaScript runtime value as it can occur in this pipeline. -/
inductive JVal where
  | jnull
  | jundefined
  | jbool (b : Bool)
  | jnum (q : Rat)
  | jstr (s : String)
  | jarr (elems : List JVal)
  | jobj (fields : List (String × JVal))
deriving Repr

/-- JavaScript whitespace for `trim` (space, tab, newline, CR, FF, VT). -/
def isWsChar (c : Char) : Bool :=
  c = ' ' ∨ c = '\t' ∨ c = '\n' ∨ c = '\r' ∨ c = '\x0c' ∨ c = '\x0b'

/-- `String.trim`, implemented structurally over the character list. -/
def strTrim (s : String) : String :=
  String.mk (((s.data.dropWhile isWsChar).reverse.dropWhile isWsChar).reverse)

/-- `String.toLowerCase`, implemented structurally (basic latin letters). -/
def strLower (s : String) : String :=
  String.mk (s.data.map Char.toLower)

/-- `String.toUpperCase`, implemented structurally (basic latin letters). -/
def strUpper (s : String) : String :=
  String.mk (s.data.map Char.toUpper)

/-- Splitting of a character list on a separator predicate, keeping empty
segments (the semantics of `String.split` and of `split(/[;,]/)`). -/
def splitChars (p : Char → Bool) : List Char → List (List Char)
  | [] => [[]]
  | c :: rest =>
      match splitChars p rest with
      | [] => if p c then [[], []] else [[c]]
      | l :: ls => if p c then [] :: l :: ls else (c :: l) :: ls

/-- `String.split`, implemented structurally. -/
def strSplit (s : String) (p : Char → Bool) : List String :=
  (splitChars p s.data).map String.mk

/-- `String.startsWith`, implemented structurally. -/
def strStartsWith (s pre : String) : Bool :=
  pre.data.isPrefixOf s.data

/-- `String.drop`, implemented structurally. -/
def strDrop (s : String) (n : Nat) : String :=
  String.mk (s.data.drop n)

/-- Approximate decimal rendering of a JavaScript number (see header note). -/
def ratToString (q : Rat) : String :=
  if q.den = 1 then toString q.num else toString q.num ++ "/" ++ toString q.den

mutual

/-- JavaScript `String(value)` for the values of this pipeline. -/
def jToString : JVal → String
  | .jnull => "null"
  | .jundefined => "undefined"
  | .jbool true => "true"
  | .jbool false => "false"
  | .jnum q => ratToString q
  | .jstr s => s
  | .jobj _ => "[object Object]"
  | .jarr xs => jarrToString xs

/-- JavaScript array-to-string: elements joined by commas, with null and
undefined elements rendered empty. -/
def jarrToString : List JVal → String
  | [] => ""
  | [.jnull] => ""
  | [.jundefined] => ""
  | [v] => jToString v
  | .jnull :: rest => "," ++ jarrToString rest
  | .jundefined :: rest => "," ++ jarrToString rest
  | v :: rest => jToString v ++ "," ++ jarrToString rest

end

/-- Source `toText`: empty for null and undefined, else `String(value).trim()`. -/
def toText (v : JVal) : String :=
  match v with
  | .jnull => ""
  | .jundefined => ""
  | v => strTrim (jToString v)

/-- Source `normalizeIdentifier`: trimmed and lowercased text. -/
def normalizeIdentifier (v : JVal) : String :=
  strLower (toText v)

/-- Source `isBlank`. -/
def isBlank (v : JVal) : Bool :=
  match v with
  | .jnull => true
  | .jundefined => true
  | .jstr s => strTrim s == ""
  | _ => false

/-- Association list lookup keyed by strings (JS object property read /
`Map.get`, first matching key). -/
def lookupAssoc {α : Type} : List (String × α) → String → Option α
  | [], _ => none
  | (k, v) :: rest, key => if k = key then some v else lookupAssoc rest key

/-- Association list update (JS property assignment / `Map.set`): replace in
place when the key exists, else append. -/
def setAssoc {α : Type} : List (String × α) → String → α → List (String × α)
  | [], key, v => [(key, v)]
  | (k, w) :: rest, key, v =>
      if k = key then (key, v) :: rest else (k, w) :: setAssoc rest key v

/-- JS `Set.add` on an insertion-ordered duplicate-free list. -/
def setAdd (l : List String) (x : String) : List String :=
  if x ∈ l then l else l ++ [x]

/-- Reading a property of a row record; a missing key is `undefined`. -/
def objGet (o : List (String × JVal)) (k : String) : JVal :=
  (lookupAssoc o k).getD .jundefined

/-- Source `parseBoolean`. -/
def parseBoolean (v : JVal) : Except String Bool :=
  match v with
  | .jbool b => .ok b
  | .jnum q =>
      if q = 1 then .ok true
      else if q = 0 then .ok false
      else .error "Expected boolean-like value"
  | v =>
      let text := strLower (toText v)
      if text = "" then .error "Expected boolean-like value"
      else if text = "true" ∨ text = "1" ∨ text = "yes" ∨ text = "y" then .ok true
      else if text = "false" ∨ text = "0" ∨ text = "no" ∨ text = "n" then .ok false
      else .error "Expected one of: true/false/1/0/yes/no"

/-- The regex `^-?\d+$` of `parseInteger`. -/
def isIntegerText (s : String) : Bool :=
  let cs := s.toList
  let core := match cs with
    | '-' :: rest => rest
    | cs => cs
  core ≠ [] && core.all Char.isDigit

/-- Decimal digits to a natural number. -/
def digitsToNat (ds : List Char) : Nat :=
  ds.foldl (fun n c => n * 10 + (c.toNat - 48)) 0

/-- Decimal integer text (matching `isIntegerText`) to an integer. -/
def intOfText (s : String) : Int :=
  match s.toList with
  | '-' :: rest => -(digitsToNat rest : Int)
  | cs => (digitsToNat cs : Int)

/-- Source `parseInteger`.  A native integral number passes through; any
other value is rendered as text and must match `^-?\d+$`. -/
def parseInteger (v : JVal) : Except String Int :=
  match v with
  | .jnum q =>
      if q.den = 1 then .ok q.num
      else
        let text := toText (.jnum q)
        if isIntegerText text then .ok (intOfText text) else .error "Expected integer"
  | v =>
      let text := toText v
      if isIntegerText text then .ok (intOfText text) else .error "Expected integer"

/-- Scale a rational by a signed power of ten. -/
def ratScale (q : Rat) (e : Int) : Rat :=
  if 0 ≤ e then q * (10 : Rat) ^ e.toNat else q / (10 : Rat) ^ (-e).toNat

/-- The prefix-parsing semantics of `Number.parseFloat` on trimmed text:
optional sign, then either an `Infinity` literal (rejected by the caller as
non-finite, hence `none` here) or digits with optional fraction and
optional well-formed exponent; the longest valid prefix is used and
trailing characters are ignored. -/
def parseFloatText (s : String) : Option Rat :=
  let cs := s.toList
  let (neg, cs) :=
    match cs with
    | '+' :: rest => (false, rest)
    | '-' :: rest => (true, rest)
    | cs => (false, cs)
  if cs.take 8 = "Infinity".toList then none
  else
    let (ip, cs1) := cs.span Char.isDigit
    let (fp, cs2) :=
      match cs1 with
      | '.' :: rest => rest.span Char.isDigit
      | cs1 => ([], cs1)
    if ip = [] ∧ fp = [] then none
    else
      let mant : Rat :=
        (digitsToNat ip : Rat) + (digitsToNat fp : Rat) / (10 : Rat) ^ fp.length
      let e : Int :=
        match cs2 with
        | 'e' :: rest | 'E' :: rest =>
          (match rest with
           | '+' :: ds =>
               let es := ds.takeWhile Char.isDigit
               if es = [] then 0 else (digitsToNat es : Int)
           | '-' :: ds =>
               let es := ds.takeWhile Char.isDigit
               if es = [] then 0 else -(digitsToNat es : Int)
           | ds =>
               let es := ds.takeWhile Char.isDigit
               if es = [] then 0 else (digitsToNat es : Int))
        | _ => 0
      let v := ratScale mant e
      some (if neg then -v else v)

/-- Source `parseFloatNumber`. -/
def parseFloatNumber (v : JVal) : Except String Rat :=
  match v with
  | .jnum q => .ok q
  | v =>
      let text := toText v
      if text = "" then .error "Expected number"
      else
        match parseFloatText text with
        | some q => .ok q
        | none => .error "Expected number"

/-- Source `parseCsvList`: an array input is normalized element-wise; text is
split on commas and semicolons, each token normalized, empties dropped. -/
def parseCsvList (v : JVal) : List String :=
  match v with
  | .jarr xs =>
      (xs.map normalizeIdentifier).filter (fun e => e ≠ "")
  | v =>
      let text := toText v
      if text = "" then []
      else
        ((strSplit text (fun c => c = ';' ∨ c = ',')).map
            (fun e => normalizeIdentifier (.jstr e))).filter (fun e => e ≠ "")

/-- JSON whitespace. -/
def jsonWs (c : Char) : Bool :=
  c = ' ' ∨ c = '\t' ∨ c = '\n' ∨ c = '\r'

/-- Drop leading JSON whitespace. -/
def skipWs (cs : List Char) : List Char :=
  cs.dropWhile jsonWs

/-- Hexadecimal digit value. -/
def hexVal (c : Char) : Option Nat :=
  if '0' ≤ c ∧ c ≤ '9' then some (c.toNat - 48)
  else if 'a' ≤ c ∧ c ≤ 'f' then some (c.toNat - 87)
  else if 'A' ≤ c ∧ c ≤ 'F' then some (c.toNat - 55)
  else none

/-- JSON string body parser (after the opening quote), with escapes. -/
def jpString (acc : List Char) : List Char → Option (String × List Char)
  | '"' :: rest => some (String.mk acc.reverse, rest)
  | '\\' :: 'u' :: a :: b :: c :: d :: rest =>
      match hexVal a, hexVal b, hexVal c, hexVal d with
      | some x, some y, some z, some w =>
          jpString (Char.ofNat (((x * 16 + y) * 16 + z) * 16 + w) :: acc) rest
      | _, _, _, _ => none
  | '\\' :: e :: rest =>
      (match e with
       | '"' => some '"'
       | '\\' => some '\\'
       | '/' => some '/'
       | 'n' => some '\n'
       | 't' => some '\t'
       | 'r' => some '\r'
       | 'b' => some (Char.ofNat 8)
       | 'f' => some (Char.ofNat 12)
       | _ => none).bind (fun c => jpString (c :: acc) rest)
  | c :: rest =>
      if c.toNat < 32 then none else jpString (c :: acc) rest
  | [] => none

/-- JSON fraction part: after an integer part, an optional dot with at
least one digit. -/
def jpFrac : List Char → Option (List Char × List Char)
  | '.' :: r =>
      let ds := r.takeWhile Char.isDigit
      if ds = [] then none else some (ds, r.dropWhile Char.isDigit)
  | cs => some ([], cs)

/-- JSON exponent part: optional, must be well formed when present. -/
def jpExp : List Char → Option (Int × List Char)
  | 'e' :: r | 'E' :: r =>
      (match r with
       | '+' :: t =>
           let ds := t.takeWhile Char.isDigit
           if ds = [] then none
           else some ((digitsToNat ds : Int), t.dropWhile Char.isDigit)
       | '-' :: t =>
           let ds := t.takeWhile Char.isDigit
           if ds = [] then none
           else some (-(digitsToNat ds : Int), t.dropWhile Char.isDigit)
       | t =>
           let ds := t.takeWhile Char.isDigit
           if ds = [] then none
           else some ((digitsToNat ds : Int), t.dropWhile Char.isDigit))
  | cs => some (0, cs)

/-- JSON number parser (strict JSON grammar). -/
def jpNumber (cs : List Char) : Option (JVal × List Char) :=
  let (neg, cs1) :=
    match cs with
    | '-' :: r => (true, r)
    | cs => (false, cs)
  let ipart : Option (Nat × List Char) :=
    match cs1 with
    | '0' :: r => some (0, r)
    | c :: _ =>
        if c.isDigit then
          some (digitsToNat (cs1.takeWhile Char.isDigit), cs1.dropWhile Char.isDigit)
        else none
    | [] => none
  match ipart with
  | none => none
  | some (i, r1) =>
      match jpFrac r1 with
      | none => none
      | some (fds, r2) =>
          match jpExp r2 with
          | none => none
          | some (e, r3) =>
              let mant : Rat :=
                (i : Rat) + (digitsToNat fds : Rat) / (10 : Rat) ^ fds.length
              let v := ratScale mant e
              some (.jnum (if neg then -v else v), r3)

mutual

/-- JSON value parser (fueled recursive descent). -/
def jpVal (fuel : Nat) (cs : List Char) : Option (JVal × List Char) :=
  match fuel with
  | 0 => none
  | fuel + 1 =>
      let cs := skipWs cs
      match cs with
      | '{' :: rest => jpObjBody fuel rest []
      | '[' :: rest => jpArrBody fuel rest []
      | '"' :: rest => (jpString [] rest).map (fun p => (.jstr p.1, p.2))
      | 'n' :: rest =>
          if rest.take 3 = ['u', 'l', 'l'] then some (.jnull, rest.drop 3) else none
      | 't' :: rest =>
          if rest.take 3 = ['r', 'u', 'e'] then some (.jbool true, rest.drop 3) else none
      | 'f' :: rest =>
          if rest.take 4 = ['a', 'l', 's', 'e'] then some (.jbool false, rest.drop 4)
          else none
      | c :: _ => if c = '-' ∨ c.isDigit then jpNumber cs else none
      | [] => none

/-- Object body right after the opening brace: empty object or first member. -/
def jpObjBody (fuel : Nat) (cs : List Char) (acc : List (String × JVal)) :
    Option (JVal × List Char) :=
  match fuel with
  | 0 => none
  | fuel + 1 =>
      match skipWs cs with
      | '}' :: rest => some (.jobj acc, rest)
      | cs1 => jpMember fuel cs1 acc

/-- One `"key": value` member; duplicate keys overwrite (JSON.parse). -/
def jpMember (fuel : Nat) (cs : List Char) (acc : List (String × JVal)) :
    Option (JVal × List Char) :=
  match fuel with
  | 0 => none
  | fuel + 1 =>
      match cs with
      | '"' :: rest =>
          match jpString [] rest with
          | none => none
          | some (k, r1) =>
              match skipWs r1 with
              | ':' :: r2 =>
                  match jpVal fuel r2 with
                  | none => none
                  | some (v, r3) => jpObjRest fuel r3 (setAssoc acc k v)
              | _ => none
      | _ => none

/-- After a member: a comma and another member, or the closing brace. -/
def jpObjRest (fuel : Nat) (cs : List Char) (acc : List (String × JVal)) :
    Option (JVal × List Char) :=
  match fuel with
  | 0 => none
  | fuel + 1 =>
      match skipWs cs with
      | ',' :: rest => jpMember fuel (skipWs rest) acc
      | '}' :: rest => some (.jobj acc, rest)
      | _ => none

/-- Array body right after the opening bracket. -/
def jpArrBody (fuel : Nat) (cs : List Char) (acc : List JVal) :
    Option (JVal × List Char) :=
  match fuel with
  | 0 => none
  | fuel + 1 =>
      match skipWs cs with
      | ']' :: rest => some (.jarr acc.reverse, rest)
      | cs1 =>
          match jpVal fuel cs1 with
          | none => none
          | some (v, r1) => jpArrRest fuel r1 (v :: acc)

/-- After an array element: a comma and another element, or the closing
bracket. -/
def jpArrRest (fuel : Nat) (cs : List Char) (acc : List JVal) :
    Option (JVal × List Char) :=
  match fuel with
  | 0 => none
  | fuel + 1 =>
      match skipWs cs with
      | ',' :: rest =>
          match jpVal fuel rest with
          | none => none
          | some (v, r1) => jpArrRest fuel r1 (v :: acc)
      | ']' :: rest => some (.jarr acc.reverse, rest)
      | _ => none

end

/-- JavaScript `JSON.parse` on a whole string (`none` models a thrown
`SyntaxError`). -/
def jsonParse (s : String) : Option JVal :=
  let cs := s.toList
  match jpVal (4 * cs.length + 16) cs with
  | some (v, rest) => if skipWs rest = [] then some v else none
  | none => none

/-- Source `parseJsonObject` (the parsed fields of the object on success). -/
def parseJsonObject (v : JVal) (allowBlank : Bool) :
    Except String (List (String × JVal)) :=
  match v with
  | .jobj fs => .ok fs
  | v =>
      let text := toText v
      if text = "" then
        if allowBlank then .ok [] else .error "JSON object is required"
      else
        match jsonParse text with
        | none => .error "Invalid JSON object"
        | some (.jobj fs) => .ok fs
        | some _ => .error "Expected JSON object"

/-- One validation finding (source `addIssue` payload shape). -/
structure Issue where
  severity : String
  sheet : String
  row : Option Nat
  field : String
  message : String
deriving Repr, DecidableEq

/-- The workbook as handed over by the cell-grid source: the sheet-name
list and the named cell matrices (header row first). -/
structure Workbook where
  sheetNames : List String
  sheets : List (String × List (List JVal))

/-- Sheet names (`SHEETS` of `excelImportTemplate.js`). -/
def SHEETS_CONFIG : String := "Import_Config"

/-- Sheet name of the attribute-group sheet. -/
def SHEETS_GROUPS : String := "Attribute_Groups"

/-- Sheet name of the attribute sheet. -/
def SHEETS_ATTRIBUTES : String := "Attributes"

/-- Sheet name of the type sheet. -/
def SHEETS_TYPES : String := "Types"

/-- Sheet name of the type-group-binding sheet. -/
def SHEETS_TYPE_GROUP_BINDINGS : String := "Type_Group_Bindings"

/-- Sheet name of the parent-item sheet. -/
def SHEETS_ITEM_PARENTS : String := "Item_Parents"

/-- Product sheets, in their fixed declared order. -/
def PRODUCT_SHEETS : List String :=
  ["TCT_Router_Bit", "Insert_Tool", "Countersink"]

/-- Required headers of the config sheet. -/
def CONFIG_HEADERS : List String := ["key", "value"]

/-- Required headers of the attribute-group sheet. -/
def GROUP_HEADERS : List String :=
  ["identifier", "name_en", "order", "visible", "options_json"]

/-- Required headers of the attribute sheet. -/
def ATTRIBUTE_HEADERS : List String :=
  ["identifier", "name_en", "type_code", "groups_csv", "order",
   "language_dependent", "rich_text", "multi_line", "pattern",
   "lov_identifier", "options_json", "valid_types_csv", "visible_types_csv"]

/-- Required headers of the type sheet. -/
def TYPE_HEADERS : List String :=
  ["identifier", "name_en", "parent_identifier", "icon", "icon_color", "file"]

/-- Required headers of the binding sheet. -/
def TYPE_GROUP_BINDING_HEADERS : List String :=
  ["group_identifier", "type_identifier", "valid", "visible"]

/-- Required base headers of every item sheet. -/
def ITEM_BASE_HEADERS : List String :=
  ["identifier", "name_en", "type_identifier", "parent_identifier",
   "values_json", "channels_json"]

/-- Valid import modes. -/
def VALID_IMPORT_MODES : List String :=
  ["CREATE_ONLY", "UPDATE_ONLY", "CREATE_UPDATE"]

/-- Valid error-processing policies. -/
def VALID_ERROR_PROCESSING : List String := ["PROCESS_WARN", "WARN_REJECTED"]

/-- Valid attribute type codes. -/
def ATTRIBUTE_TYPE_CODES : List Int := [1, 2, 3, 4, 5, 6, 7, 8]

/-- Lookup of a sheet matrix by name (`workbook.Sheets[sheetName]`). -/
def lookupSheet (w : Workbook) (n : String) : Option (List (List JVal)) :=
  lookupAssoc w.sheets n

/-- Result of `parseSheetWithHeaders`. -/
structure ParsedSheet where
  sheetExists : Bool
  headers : List String
  rows : List (Nat × List (String × JVal))
  missingHeaders : List String

/-- Source `parseSheetWithHeaders`: header row to field names, remaining
rows to 1-based-numbered records mapping each header to the cell under it
(`undefined` when the row is shorter). -/
def parseSheetWithHeaders (w : Workbook) (sheetName : String)
    (required : List String) : ParsedSheet :=
  match lookupSheet w sheetName with
  | none =>
      { sheetExists := false, headers := [], rows := [], missingHeaders := required }
  | some matrix =>
      let rawHeaders := matrix.headD []
      let headers := rawHeaders.map toText
      let present := headers.filter (fun h => h ≠ "")
      let missingHeaders := required.filter (fun h => h ∉ present)
      let rows := (matrix.drop 1).enum.map (fun p =>
        (p.1 + 2,
         headers.enum.foldl (fun o q => setAssoc o q.2 (p.2.getD q.1 .jundefined)) []))
      { sheetExists := true, headers := headers, rows := rows,
        missingHeaders := missingHeaders }

/-- Source `rowHasAnyValue`. -/
def rowHasAnyValue (data : List (String × JVal)) (headers : List String) : Bool :=
  headers.any (fun h => ¬ isBlank (objGet data h))

/-- Source `addIssue` as a pure constructor. -/
def mkIssue (severity sheet : String) (row : Option Nat) (field message : String) :
    Issue :=
  { severity := severity, sheet := sheet, row := row, field := field,
    message := message }

/-- Source `ensureRequiredSheets`: one error issue per missing sheet of the
fixed required list (the config sheet included), in list order. -/
def ensureRequiredSheets (w : Workbook) (issues : List Issue) : List Issue :=
  let requiredSheets :=
    [SHEETS_CONFIG, SHEETS_GROUPS, SHEETS_ATTRIBUTES, SHEETS_TYPES,
     SHEETS_TYPE_GROUP_BINDINGS, SHEETS_ITEM_PARENTS] ++ PRODUCT_SHEETS
  requiredSheets.foldl (fun acc s =>
    if s ∈ w.sheetNames then acc
    else acc ++ [mkIssue "error" s none "sheet" "Sheet is required but missing"]) issues

/-- The parsed config record. -/
structure Config where
  mode : String
  errors : String
  defaultLanguage : String
deriving Repr, DecidableEq

/-- The regex `^[a-z]{2}(-[a-z]{2})?$` of `parseConfig`. -/
def isLangTag (s : String) : Bool :=
  let low := fun c : Char => 'a' ≤ c ∧ c ≤ 'z'
  match s.toList with
  | [a, b] => low a ∧ low b
  | [a, b, '-', c, d] => low a ∧ low b ∧ low c ∧ low d
  | _ => false

/-- One row of the config key/value loop. -/
def configRowStep (acc : List (String × String) × List Issue)
    (row : Nat × List (String × JVal)) : List (String × String) × List Issue :=
  if rowHasAnyValue row.2 CONFIG_HEADERS then
    let key := strLower (toText (objGet row.2 "key"))
    let value := toText (objGet row.2 "value")
    if key = "" then
      (acc.1, acc.2 ++ [mkIssue "error" SHEETS_CONFIG (some row.1) "key" "Key is required"])
    else (setAssoc acc.1 key value, acc.2)
  else acc

/-- A config map value, with the JS `||` falsy-default applied. -/
def kvOr (kv : List (String × String)) (key dflt : String) : String :=
  match lookupAssoc kv key with
  | some s => if s = "" then dflt else s
  | none => dflt

/-- Source `parseConfig`: defaults when the sheet is absent, else the
key/value rows with validation of mode, error policy and language tag. -/
def parseConfig (w : Workbook) (issues : List Issue) : Config × List Issue :=
  let parsed := parseSheetWithHeaders w SHEETS_CONFIG CONFIG_HEADERS
  if !parsed.sheetExists then
    ({ mode := "CREATE_UPDATE", errors := "PROCESS_WARN", defaultLanguage := "en" },
     issues)
  else
    let issues := issues ++ parsed.missingHeaders.map (fun h =>
      mkIssue "error" SHEETS_CONFIG (some 1) h "Missing required header")
    let kvIssues := parsed.rows.foldl configRowStep ([], issues)
    let kv := kvIssues.1
    let issues := kvIssues.2
    let mode := strUpper (kvOr kv "mode" "CREATE_UPDATE")
    let errors := strUpper (kvOr kv "errors" "PROCESS_WARN")
    let defaultLanguage := strLower (kvOr kv "default_language" "en")
    let issues :=
      if mode ∈ VALID_IMPORT_MODES then issues
      else issues ++ [mkIssue "error" SHEETS_CONFIG none "mode"
        "mode must be CREATE_ONLY, UPDATE_ONLY, or CREATE_UPDATE"]
    let issues :=
      if errors ∈ VALID_ERROR_PROCESSING then issues
      else issues ++ [mkIssue "error" SHEETS_CONFIG none "errors"
        "errors must be PROCESS_WARN or WARN_REJECTED"]
    let issues :=
      if isLangTag defaultLanguage then issues
      else issues ++ [mkIssue "warning" SHEETS_CONFIG none "default_language"
        "default_language should look like en or en-us"]
    ({ mode := mode, errors := errors, defaultLanguage := defaultLanguage }, issues)

/-- A normalized attribute-group request. -/
structure GroupRequest where
  identifier : String
  name : String × String
  order : Option Int
  visible : Option Bool
  options : Option (List (String × JVal))
deriving Repr

/-- Fold state of the attribute-group parser. -/
structure GroupState where
  byIdentifier : List (String × GroupRequest)
  payload : List GroupRequest
  issues : List Issue

/-- One row of the attribute-group parser. -/
def groupRowStep (config : Config) (st : GroupState)
    (row : Nat × List (String × JVal)) : GroupState :=
  if ¬ rowHasAnyValue row.2 GROUP_HEADERS then st
  else
    let identifier := normalizeIdentifier (objGet row.2 "identifier")
    let name := toText (objGet row.2 "name_en")
    let orderText := toText (objGet row.2 "order")
    let visibleText := toText (objGet row.2 "visible")
    if identifier = "" then
      { st with issues := st.issues ++
          [mkIssue "error" SHEETS_GROUPS (some row.1) "identifier" "identifier is required"] }
    else if name = "" then
      { st with issues := st.issues ++
          [mkIssue "error" SHEETS_GROUPS (some row.1) "name_en" "name_en is required"] }
    else if (lookupAssoc st.byIdentifier identifier).isSome then
      { st with issues := st.issues ++
          [mkIssue "error" SHEETS_GROUPS (some row.1) "identifier" "Duplicate group identifier"] }
    else
      let orderRes : Except String (Option Int) :=
        if orderText = "" then .ok none
        else (parseInteger (.jstr orderText)).map some
      match orderRes with
      | .error e =>
          { st with issues := st.issues ++ [mkIssue "error" SHEETS_GROUPS (some row.1) "order" e] }
      | .ok order =>
      let visibleRes : Except String (Option Bool) :=
        if visibleText = "" then .ok none
        else (parseBoolean (.jstr visibleText)).map some
      match visibleRes with
      | .error e =>
          { st with issues := st.issues ++ [mkIssue "error" SHEETS_GROUPS (some row.1) "visible" e] }
      | .ok visible =>
      match parseJsonObject (objGet row.2 "options_json") true with
      | .error e =>
          { st with issues := st.issues ++ [mkIssue "error" SHEETS_GROUPS (some row.1) "options_json" e] }
      | .ok options =>
          let request : GroupRequest :=
            { identifier := identifier
              name := (config.defaultLanguage, name)
              order := order
              visible := visible
              options := if options.length > 0 then some options else none }
          { byIdentifier := setAssoc st.byIdentifier identifier request
            payload := st.payload ++ [request]
            issues := st.issues }

/-- Source `parseAttributeGroups`. -/
def parseAttributeGroups (w : Workbook) (config : Config) (issues : List Issue) :
    List GroupRequest × List (String × GroupRequest) × List Issue :=
  let parsed := parseSheetWithHeaders w SHEETS_GROUPS GROUP_HEADERS
  if !parsed.sheetExists then ([], [], issues)
  else
    let issues := issues ++ parsed.missingHeaders.map (fun h =>
      mkIssue "error" SHEETS_GROUPS (some 1) h "Missing required header")
    let st := parsed.rows.foldl (groupRowStep config)
      { byIdentifier := [], payload := [], issues := issues }
    (st.payload, st.byIdentifier, st.issues)

/-- A normalized type request. -/
structure TypeRequest where
  identifier : String
  name : String × String
  parentIdentifier : Option String
  icon : Option String
  iconColor : Option String
  file : Option Bool
deriving Repr, DecidableEq

/-- Fold state of the type parser. -/
structure TypeState where
  byIdentifier : List (String × TypeRequest)
  payload : List TypeRequest
  issues : List Issue

/-- One row of the type parser. -/
def typeRowStep (config : Config) (st : TypeState)
    (row : Nat × List (String × JVal)) : TypeState :=
  if ¬ rowHasAnyValue row.2 TYPE_HEADERS then st
  else
    let identifier := normalizeIdentifier (objGet row.2 "identifier")
    let name := toText (objGet row.2 "name_en")
    let parentIdentifier := normalizeIdentifier (objGet row.2 "parent_identifier")
    if identifier = "" then
      { st with issues := st.issues ++
          [mkIssue "error" SHEETS_TYPES (some row.1) "identifier" "identifier is required"] }
    else if name = "" then
      { st with issues := st.issues ++
          [mkIssue "error" SHEETS_TYPES (some row.1) "name_en" "name_en is required"] }
    else if (lookupAssoc st.byIdentifier identifier).isSome then
      { st with issues := st.issues ++
          [mkIssue "error" SHEETS_TYPES (some row.1) "identifier" "Duplicate type identifier"] }
    else
      let fileRes : Except String (Option Bool) :=
        if isBlank (objGet row.2 "file") then .ok none
        else (parseBoolean (objGet row.2 "file")).map some
      match fileRes with
      | .error e =>
          { st with issues := st.issues ++ [mkIssue "error" SHEETS_TYPES (some row.1) "file" e] }
      | .ok fileValue =>
          let icon := toText (objGet row.2 "icon")
          let iconColor := toText (objGet row.2 "icon_color")
          let request : TypeRequest :=
            { identifier := identifier
              name := (config.defaultLanguage, name)
              parentIdentifier := if parentIdentifier = "" then none else some parentIdentifier
              icon := if icon = "" then none else some icon
              iconColor := if iconColor = "" then none else some iconColor
              file := fileValue }
          { byIdentifier := setAssoc st.byIdentifier identifier request
            payload := st.payload ++ [request]
            issues := st.issues }

/-- Message of the unresolved-parent-type warning. -/
def parentTypeWarnMsg (p : String) : String :=
  s!"Parent type {p} is not defined in this workbook. It must already exist in PIM."

/-- Message of the self-referencing-type error. -/
def selfParentTypeMsg (t : String) : String :=
  s!"Type {t} cannot reference itself as parent."

/-- The second pass of `parseTypes` over the emitted requests: a warning per
unresolved parent type and an error per self-referencing type, both with a
null row. -/
def typeSecondPass (byIdentifier : List (String × TypeRequest))
    (issues : List Issue) (payload : List TypeRequest) : List Issue :=
  payload.foldl (fun acc tr =>
    let acc :=
      match tr.parentIdentifier with
      | some p =>
          if (lookupAssoc byIdentifier p).isSome then acc
          else acc ++ [mkIssue "warning" SHEETS_TYPES none "parent_identifier"
            (parentTypeWarnMsg p)]
      | none => acc
    match tr.parentIdentifier with
    | some p =>
        if p = tr.identifier then
          acc ++ [mkIssue "error" SHEETS_TYPES none "parent_identifier"
            (selfParentTypeMsg tr.identifier)]
        else acc
    | none => acc) issues

/-- Source `parseTypes`. -/
def parseTypes (w : Workbook) (config : Config) (issues : List Issue) :
    List TypeRequest × List (String × TypeRequest) × List Issue :=
  let parsed := parseSheetWithHeaders w SHEETS_TYPES TYPE_HEADERS
  if !parsed.sheetExists then ([], [], issues)
  else
    let issues := issues ++ parsed.missingHeaders.map (fun h =>
      mkIssue "error" SHEETS_TYPES (some 1) h "Missing required header")
    let st := parsed.rows.foldl (typeRowStep config)
      { byIdentifier := [], payload := [], issues := issues }
    (st.payload, st.byIdentifier, typeSecondPass st.byIdentifier st.issues st.payload)

/-- One type-group binding record. -/
structure Binding where
  typeIdentifier : String
  valid : Bool
  visible : Bool
deriving Repr, DecidableEq

/-- Fold state of the binding parser. -/
structure BindState where
  bindingMap : List (String × List Binding)
  issues : List Issue

/-- Message of the unknown-group binding warning. -/
def bindGroupWarnMsg (g : String) : String :=
  s!"Group {g} is not defined in Attribute_Groups sheet"

/-- Message of the unknown-type binding warning. -/
def bindTypeWarnMsg (t : String) : String :=
  s!"Type {t} is not defined in Types sheet"

/-- One row of the binding parser. -/
def bindingRowStep (groupIdentifiers typeIdentifiers : List String)
    (st : BindState) (row : Nat × List (String × JVal)) : BindState :=
  if ¬ rowHasAnyValue row.2 TYPE_GROUP_BINDING_HEADERS then st
  else
    let groupIdentifier := normalizeIdentifier (objGet row.2 "group_identifier")
    let typeIdentifier := normalizeIdentifier (objGet row.2 "type_identifier")
    if groupIdentifier = "" then
      { st with issues := st.issues ++
          [mkIssue "error" SHEETS_TYPE_GROUP_BINDINGS (some row.1) "group_identifier"
            "group_identifier is required"] }
    else if typeIdentifier = "" then
      { st with issues := st.issues ++
          [mkIssue "error" SHEETS_TYPE_GROUP_BINDINGS (some row.1) "type_identifier"
            "type_identifier is required"] }
    else
      let issues := st.issues
      let issues :=
        if groupIdentifier ∈ groupIdentifiers then issues
        else issues ++ [mkIssue "warning" SHEETS_TYPE_GROUP_BINDINGS (some row.1)
          "group_identifier" (bindGroupWarnMsg groupIdentifier)]
      let issues :=
        if typeIdentifier ∈ typeIdentifiers then issues
        else issues ++ [mkIssue "warning" SHEETS_TYPE_GROUP_BINDINGS (some row.1)
          "type_identifier" (bindTypeWarnMsg typeIdentifier)]
      let validRes : Except String Bool :=
        if isBlank (objGet row.2 "valid") then .ok true
        else parseBoolean (objGet row.2 "valid")
      let visibleRes : Except String Bool :=
        if isBlank (objGet row.2 "visible") then .ok true
        else parseBoolean (objGet row.2 "visible")
      match validRes with
      | .error e =>
          { st with issues := issues ++
              [mkIssue "error" SHEETS_TYPE_GROUP_BINDINGS (some row.1) "valid" e] }
      | .ok validValue =>
      match visibleRes with
      | .error e =>
          { st with issues := issues ++
              [mkIssue "error" SHEETS_TYPE_GROUP_BINDINGS (some row.1) "visible" e] }
      | .ok visibleValue =>
          let current := (lookupAssoc st.bindingMap groupIdentifier).getD []
          { bindingMap := setAssoc st.bindingMap groupIdentifier
              (current ++ [{ typeIdentifier := typeIdentifier, valid := validValue,
                             visible := visibleValue }])
            issues := issues }

/-- Source `parseTypeGroupBindings`. -/
def parseTypeGroupBindings (w : Workbook) (groupIdentifiers typeIdentifiers : List String)
    (issues : List Issue) : List (String × List Binding) × List Issue :=
  let parsed := parseSheetWithHeaders w SHEETS_TYPE_GROUP_BINDINGS
    TYPE_GROUP_BINDING_HEADERS
  if !parsed.sheetExists then ([], issues)
  else
    let issues := issues ++ parsed.missingHeaders.map (fun h =>
      mkIssue "error" SHEETS_TYPE_GROUP_BINDINGS (some 1) h "Missing required header")
    let st := parsed.rows.foldl (bindingRowStep groupIdentifiers typeIdentifiers)
      { bindingMap := [], issues := issues }
    (st.bindingMap, st.issues)

/-- A normalized attribute request. -/
structure AttrRequest where
  identifier : String
  name : String × String
  groups : List String
  type : Int
  languageDependent : Bool
  richText : Bool
  multiLine : Bool
  order : Option Int
  pattern : Option String
  lov : Option String
  valid : Option (List String)
  visible : Option (List String)
  options : Option (List (String × JVal))
deriving Repr

/-- The reduced attribute projection kept for item parsing. -/
structure AttrModel where
  identifier : String
  type : Int
  languageDependent : Bool
deriving Repr, DecidableEq

/-- Duplicate elimination in insertion order (`new Set(list)`). -/
def dedupAdd (l : List String) : List String :=
  l.foldl setAdd []

/-- Bindings registered for a group. -/
def bindingGet (m : List (String × List Binding)) (g : String) : List Binding :=
  (lookupAssoc m g).getD []

/-- One binding applied to the (valid set, visible set) pair. -/
def bindingSetStep (p : List String × List String) (b : Binding) :
    List String × List String :=
  (if b.valid then setAdd p.1 b.typeIdentifier else p.1,
   if b.visible then setAdd p.2 b.typeIdentifier else p.2)

/-- The group-binding propagation loop of `parseAttributes`: every binding of
every declared group adds its type to the valid set when `valid` and to the
visible set when `visible`. -/
def applyBindings (bindingMap : List (String × List Binding))
    (groups : List String) (sets : List String × List String) :
    List String × List String :=
  groups.foldl (fun p g => (bindingGet bindingMap g).foldl bindingSetStep p) sets

/-- Fold state of the attribute parser. -/
structure AttrState where
  byIdentifier : List (String × AttrModel)
  payload : List AttrRequest
  issues : List Issue

/-- Message of the unknown-groups error. -/
def unknownGroupsMsg (gs : List String) : String :=
  let joined := String.intercalate ", " gs
  s!"Unknown group identifiers: {joined}"

/-- Message of the unresolved valid/visible type warning. -/
def attrTypeWarnMsg (t : String) : String :=
  s!"Type {t} is not in Types sheet. It must already exist in PIM."

/-- The emission tail of an attribute row: the effective valid/visible
sets (explicit CSV sets united with the group-binding propagation), the
unresolved-type warnings, and the request/model push. -/
def attrRowEmit (config : Config) (typeMap : List (String × TypeRequest))
    (bindingMap : List (String × List Binding)) (st : AttrState)
    (row : Nat × List (String × JVal)) (identifier name : String)
    (typeCode : Int) (groups : List String) (order : Option Int)
    (languageDependent richText multiLine : Bool)
    (options : List (String × JVal)) : AttrState :=
  let validSet0 := dedupAdd (parseCsvList (objGet row.2 "valid_types_csv"))
  let visibleSet0 := dedupAdd (parseCsvList (objGet row.2 "visible_types_csv"))
  let sets := applyBindings bindingMap groups (validSet0, visibleSet0)
  let validSet := sets.1
  let visibleSet := sets.2
  let issues := (validSet ++ visibleSet).foldl (fun acc t =>
    if (lookupAssoc typeMap t).isSome then acc
    else acc ++ [mkIssue "warning" SHEETS_ATTRIBUTES (some row.1)
      "valid_types_csv" (attrTypeWarnMsg t)]) st.issues
  let pattern := toText (objGet row.2 "pattern")
  let lovIdentifier := normalizeIdentifier (objGet row.2 "lov_identifier")
  let request : AttrRequest :=
    { identifier := identifier
      name := (config.defaultLanguage, name)
      groups := groups
      type := typeCode
      languageDependent := languageDependent
      richText := richText
      multiLine := multiLine
      order := order
      pattern := if pattern = "" then none else some pattern
      lov := if lovIdentifier = "" then none else some lovIdentifier
      valid := if validSet.length > 0 then some validSet else none
      visible := if visibleSet.length > 0 then some visibleSet else none
      options := if options.length > 0 then some options else none }
  let model : AttrModel :=
    { identifier := identifier, type := typeCode,
      languageDependent := languageDependent }
  { byIdentifier := setAssoc st.byIdentifier identifier model
    payload := st.payload ++ [request]
    issues := issues }

/-- The optional-field phase of an attribute row: order, the three boolean
flags and the options object, each failure dropping the row with one
error. -/
def attrRowFields (config : Config) (typeMap : List (String × TypeRequest))
    (bindingMap : List (String × List Binding)) (st : AttrState)
    (row : Nat × List (String × JVal)) (identifier name : String)
    (typeCode : Int) (groups : List String) : AttrState :=
  let orderRes : Except String (Option Int) :=
    if isBlank (objGet row.2 "order") then .ok none
    else (parseInteger (objGet row.2 "order")).map some
  match orderRes with
  | .error e =>
      { st with issues := st.issues ++ [mkIssue "error" SHEETS_ATTRIBUTES (some row.1) "order" e] }
  | .ok order =>
  let languageDependentRes : Except String Bool :=
    if isBlank (objGet row.2 "language_dependent") then .ok false
    else parseBoolean (objGet row.2 "language_dependent")
  let richTextRes : Except String Bool :=
    if isBlank (objGet row.2 "rich_text") then .ok false
    else parseBoolean (objGet row.2 "rich_text")
  let multiLineRes : Except String Bool :=
    if isBlank (objGet row.2 "multi_line") then .ok false
    else parseBoolean (objGet row.2 "multi_line")
  match languageDependentRes with
  | .error e =>
      { st with issues := st.issues ++
          [mkIssue "error" SHEETS_ATTRIBUTES (some row.1) "language_dependent" e] }
  | .ok languageDependent =>
  match richTextRes with
  | .error e =>
      { st with issues := st.issues ++ [mkIssue "error" SHEETS_ATTRIBUTES (some row.1) "rich_text" e] }
  | .ok richText =>
  match multiLineRes with
  | .error e =>
      { st with issues := st.issues ++ [mkIssue "error" SHEETS_ATTRIBUTES (some row.1) "multi_line" e] }
  | .ok multiLine =>
  match parseJsonObject (objGet row.2 "options_json") true with
  | .error e =>
      { st with issues := st.issues ++ [mkIssue "error" SHEETS_ATTRIBUTES (some row.1) "options_json" e] }
  | .ok options =>
      attrRowEmit config typeMap bindingMap st row identifier name typeCode groups
        order languageDependent richText multiLine options

/-- The type-code and group phase of an attribute row. -/
def attrRowTyped (config : Config) (groupMap : List (String × GroupRequest))
    (typeMap : List (String × TypeRequest))
    (bindingMap : List (String × List Binding)) (st : AttrState)
    (row : Nat × List (String × JVal)) (identifier name typeRaw : String) :
    AttrState :=
  match parseInteger (.jstr typeRaw) with
  | .error _ =>
      { st with issues := st.issues ++
          [mkIssue "error" SHEETS_ATTRIBUTES (some row.1) "type_code" "type_code must be one of 1..8"] }
  | .ok typeCode =>
  if typeCode ∉ ATTRIBUTE_TYPE_CODES then
    { st with issues := st.issues ++
        [mkIssue "error" SHEETS_ATTRIBUTES (some row.1) "type_code" "type_code must be one of 1..8"] }
  else
  let groups := parseCsvList (objGet row.2 "groups_csv")
  if groups.length = 0 then
    { st with issues := st.issues ++
        [mkIssue "error" SHEETS_ATTRIBUTES (some row.1) "groups_csv"
          "At least one group identifier is required"] }
  else
  let unknownGroups := groups.filter (fun g => ¬ (lookupAssoc groupMap g).isSome)
  if unknownGroups.length > 0 then
    { st with issues := st.issues ++
        [mkIssue "error" SHEETS_ATTRIBUTES (some row.1) "groups_csv"
          (unknownGroupsMsg unknownGroups)] }
  else
    attrRowFields config typeMap bindingMap st row identifier name typeCode groups

/-- One row of the attribute parser (source loop body of `parseAttributes`,
decomposed into the sequential phases above). -/
def attrRowStep (config : Config) (groupMap : List (String × GroupRequest))
    (typeMap : List (String × TypeRequest))
    (bindingMap : List (String × List Binding)) (st : AttrState)
    (row : Nat × List (String × JVal)) : AttrState :=
  if ¬ rowHasAnyValue row.2 ATTRIBUTE_HEADERS then st
  else
    let identifier := normalizeIdentifier (objGet row.2 "identifier")
    let name := toText (objGet row.2 "name_en")
    let typeRaw := toText (objGet row.2 "type_code")
    if identifier = "" then
      { st with issues := st.issues ++
          [mkIssue "error" SHEETS_ATTRIBUTES (some row.1) "identifier" "identifier is required"] }
    else if name = "" then
      { st with issues := st.issues ++
          [mkIssue "error" SHEETS_ATTRIBUTES (some row.1) "name_en" "name_en is required"] }
    else if typeRaw = "" then
      { st with issues := st.issues ++
          [mkIssue "error" SHEETS_ATTRIBUTES (some row.1) "type_code" "type_code is required"] }
    else if (lookupAssoc st.byIdentifier identifier).isSome then
      { st with issues := st.issues ++
          [mkIssue "error" SHEETS_ATTRIBUTES (some row.1) "identifier" "Duplicate attribute identifier"] }
    else
      attrRowTyped config groupMap typeMap bindingMap st row identifier name typeRaw

/-- Source `parseAttributes`. -/
def parseAttributes (w : Workbook) (config : Config)
    (groupMap : List (String × GroupRequest)) (typeMap : List (String × TypeRequest))
    (bindingMap : List (String × List Binding)) (issues : List Issue) :
    List AttrRequest × List (String × AttrModel) × List Issue :=
  let parsed := parseSheetWithHeaders w SHEETS_ATTRIBUTES ATTRIBUTE_HEADERS
  if !parsed.sheetExists then ([], [], issues)
  else
    let issues := issues ++ parsed.missingHeaders.map (fun h =>
      mkIssue "error" SHEETS_ATTRIBUTES (some 1) h "Missing required header")
    let st := parsed.rows.foldl (attrRowStep config groupMap typeMap bindingMap)
      { byIdentifier := [], payload := [], issues := issues }
    (st.payload, st.byIdentifier, st.issues)

/-- Result of `coerceAttributeValue`: skipped blank, coerced value, or
rejection reason. -/
inductive CoerceRes where
  | skip
  | val (v : JVal)
  | err (e : String)
deriving Repr

/-- Source `coerceAttributeValue`: blanks are skipped (the source tests
null, undefined and empty trimmed text; the first two render as empty text,
so the single text test is equivalent); language-dependent
attributes pass objects through and wrap any other value under the default
language; BOOLEAN/INTEGER/FLOAT type codes run the matching coercer; every
other type code stores the trimmed text. -/
def coerceAttributeValue (rawValue : JVal) (attr : AttrModel)
    (defaultLanguage : String) : CoerceRes :=
  if toText rawValue = "" then .skip
  else if attr.languageDependent then
    match rawValue with
    | .jobj fs => .val (.jobj fs)
    | v => .val (.jobj [(defaultLanguage, .jstr (toText v))])
  else if attr.type = 2 then
    match parseBoolean rawValue with
    | .error e => .err e
    | .ok b => .val (.jbool b)
  else if attr.type = 3 then
    match parseInteger rawValue with
    | .error e => .err e
    | .ok n => .val (.jnum (n : Rat))
  else if attr.type = 4 then
    match parseFloatNumber rawValue with
    | .error e => .err e
    | .ok q => .val (.jnum q)
  else .val (.jstr (toText rawValue))

/-- Source `collectDeclaredItemIdentifiers`: every nonempty normalized
identifier of every row of every item sheet. -/
def collectDeclaredItemIdentifiers (w : Workbook) : List String :=
  (SHEETS_ITEM_PARENTS :: PRODUCT_SHEETS).foldl (fun declared sheetName =>
    let parsed := parseSheetWithHeaders w sheetName ITEM_BASE_HEADERS
    if !parsed.sheetExists then declared
    else parsed.rows.foldl (fun d r =>
      let identifier := normalizeIdentifier (objGet r.2 "identifier")
      if identifier = "" then d else setAdd d identifier) declared) []

/-- A normalized item request (parents and products share the shape). -/
structure ItemRequest where
  identifier : String
  typeIdentifier : String
  name : String × String
  parentIdentifier : Option String
  values : Option (List (String × JVal))
  channels : Option (List (String × JVal))
deriving Repr

/-- Message of the unknown-attribute error of the values_json loop. -/
def valuesJsonUnknownMsg (k : String) : String :=
  s!"values_json contains unknown attribute {k}"

/-- Message of the unknown-attribute error of an attr: column. -/
def attrColUnknownMsg (a : String) : String :=
  s!"Unknown attribute {a}"

/-- One entry of the values_json loop of `parseItemSheet`: unknown
attributes error out, blanks are skipped, coerced values overwrite the
entry at the normalized key. -/
def valuesJsonStep (sheetName : String) (rowNumber : Nat)
    (attributeMap : List (String × AttrModel)) (lang : String)
    (acc : List (String × JVal) × List Issue) (entry : String × JVal) :
    List (String × JVal) × List Issue :=
  let attributeIdentifier := normalizeIdentifier (.jstr entry.1)
  match lookupAssoc attributeMap attributeIdentifier with
  | none =>
      (acc.1, acc.2 ++ [mkIssue "error" sheetName (some rowNumber) "values_json"
        (valuesJsonUnknownMsg entry.1)])
  | some attrM =>
      match coerceAttributeValue entry.2 attrM lang with
      | .err e =>
          (acc.1, acc.2 ++ [mkIssue "error" sheetName (some rowNumber)
            ("values_json." ++ entry.1) ("Invalid value: " ++ e)])
      | .skip => acc
      | .val v => (setAssoc acc.1 attributeIdentifier v, acc.2)

/-- One attr:-prefixed column of `parseItemSheet`: blanks are skipped
entirely, unknown attributes error out, coerced values overwrite the entry
at the normalized attribute identifier. -/
def attrColumnStep (sheetName : String) (rowNumber : Nat)
    (data : List (String × JVal)) (attributeMap : List (String × AttrModel))
    (lang : String) (acc : List (String × JVal) × List Issue) (header : String) :
    List (String × JVal) × List Issue :=
  let attributeIdentifier := normalizeIdentifier (.jstr (strDrop header 5))
  if attributeIdentifier = "" then acc
  else if isBlank (objGet data header) then acc
  else
    match lookupAssoc attributeMap attributeIdentifier with
    | none =>
        (acc.1, acc.2 ++ [mkIssue "error" sheetName (some rowNumber) header
          (attrColUnknownMsg attributeIdentifier)])
    | some attrM =>
        match coerceAttributeValue (objGet data header) attrM lang with
        | .err e =>
            (acc.1, acc.2 ++ [mkIssue "error" sheetName (some rowNumber) header
              ("Invalid value: " ++ e)])
        | .skip => acc
        | .val v => (setAssoc acc.1 attributeIdentifier v, acc.2)

/-- The values assembly of `parseItemSheet`: the parsed values_json object
is spread into the mapping, then its entries are coerced in place, then the
attr: columns are applied on top. -/
def itemValuesFold (sheetName : String) (rowNumber : Nat)
    (attributeMap : List (String × AttrModel)) (lang : String)
    (data : List (String × JVal)) (attrHeaders : List String)
    (valuesObj : List (String × JVal)) (issues : List Issue) :
    List (String × JVal) × List Issue :=
  let p := valuesObj.foldl (valuesJsonStep sheetName rowNumber attributeMap lang)
    (valuesObj, issues)
  attrHeaders.foldl (attrColumnStep sheetName rowNumber data attributeMap lang) p

/-- Fold state of an item-sheet parser. -/
structure ItemState where
  payload : List ItemRequest
  seen : List String
  issues : List Issue

/-- Message of the duplicate-item error. -/
def dupItemMsg (i : String) : String :=
  s!"Duplicate item identifier {i} across item sheets"

/-- Message of the child-type-requires-parent error. -/
def childTypeMsg (t p : String) : String :=
  s!"type {t} is child of {p}, so parent_identifier is required"

/-- Message of the unresolved-parent-item warning. -/
def parentItemWarnMsg (p : String) : String :=
  s!"Parent item {p} is not declared in workbook. It must already exist in PIM."

/-- The emission tail of an item row: the two JSON cells (failures drop
the row), the values assembly, and the unconditional push of the request. -/
def itemRowEmit (sheetName : String) (config : Config)
    (attributeMap : List (String × AttrModel)) (attrHeaders : List String)
    (payload : List ItemRequest) (seen : List String) (issues : List Issue)
    (row : Nat × List (String × JVal))
    (identifier name typeIdentifier parentIdentifier : String) : ItemState :=
  match parseJsonObject (objGet row.2 "values_json") true with
  | .error e =>
      { payload := payload, seen := seen, issues := issues ++
          [mkIssue "error" sheetName (some row.1) "values_json" e] }
  | .ok valuesObj =>
  match parseJsonObject (objGet row.2 "channels_json") true with
  | .error e =>
      { payload := payload, seen := seen, issues := issues ++
          [mkIssue "error" sheetName (some row.1) "channels_json" e] }
  | .ok channelsObj =>
      let vp := itemValuesFold sheetName row.1 attributeMap
        config.defaultLanguage row.2 attrHeaders valuesObj issues
      let request : ItemRequest :=
        { identifier := identifier
          typeIdentifier := typeIdentifier
          name := (config.defaultLanguage, name)
          parentIdentifier :=
            if parentIdentifier = "" then none else some parentIdentifier
          values := if vp.1.length > 0 then some vp.1 else none
          channels := if channelsObj.length > 0 then some channelsObj else none }
      { payload := payload ++ [request], seen := seen, issues := vp.2 }

/-- The middle of an item row, right after the identifier reservation: the
type warning, the child-type parent requirement, the self-parent check,
the parent-item warning, then the emission tail. -/
def itemRowAfterReserve (sheetName : String) (config : Config)
    (attributeMap : List (String × AttrModel))
    (typeMap : List (String × TypeRequest)) (declared : List String)
    (attrHeaders : List String) (st : ItemState)
    (row : Nat × List (String × JVal))
    (identifier name typeIdentifier parentIdentifier : String) : ItemState :=
  let seen := setAdd st.seen identifier
  let issues :=
    if (lookupAssoc typeMap typeIdentifier).isSome then st.issues
    else st.issues ++ [mkIssue "warning" sheetName (some row.1) "type_identifier"
      (attrTypeWarnMsg typeIdentifier)]
  let typeParent : Option String :=
    match lookupAssoc typeMap typeIdentifier with
    | some meta => meta.parentIdentifier
    | none => none
  let requiredParent : Option String :=
    match typeParent with
    | some p => if parentIdentifier = "" then some p else none
    | none => none
  match requiredParent with
  | some p =>
      { payload := st.payload, seen := seen, issues := issues ++
          [mkIssue "error" sheetName (some row.1) "parent_identifier"
            (childTypeMsg typeIdentifier p)] }
  | none =>
  if parentIdentifier = identifier then
    { payload := st.payload, seen := seen, issues := issues ++
        [mkIssue "error" sheetName (some row.1) "parent_identifier"
          "parent_identifier cannot reference the same item identifier"] }
  else
    let issues :=
      if parentIdentifier ≠ "" ∧ parentIdentifier ∉ seen ∧
          parentIdentifier ∉ declared then
        issues ++ [mkIssue "warning" sheetName (some row.1) "parent_identifier"
          (parentItemWarnMsg parentIdentifier)]
      else issues
    itemRowEmit sheetName config attributeMap attrHeaders st.payload seen issues
      row identifier name typeIdentifier parentIdentifier

/-- One row of `parseItemSheet` (source loop body), in source order: the
blank-row skip, the required fields, the cross-sheet duplicate check, then
the reservation and the phases above. -/
def itemRowStep (sheetName : String) (config : Config)
    (attributeMap : List (String × AttrModel))
    (typeMap : List (String × TypeRequest)) (declared : List String)
    (allHeaders attrHeaders : List String) (st : ItemState)
    (row : Nat × List (String × JVal)) : ItemState :=
  if ¬ rowHasAnyValue row.2 allHeaders then st
  else
    let identifier := normalizeIdentifier (objGet row.2 "identifier")
    let name := toText (objGet row.2 "name_en")
    let typeIdentifier := normalizeIdentifier (objGet row.2 "type_identifier")
    let parentIdentifier := normalizeIdentifier (objGet row.2 "parent_identifier")
    if identifier = "" then
      { st with issues := st.issues ++
          [mkIssue "error" sheetName (some row.1) "identifier" "identifier is required"] }
    else if name = "" then
      { st with issues := st.issues ++
          [mkIssue "error" sheetName (some row.1) "name_en" "name_en is required"] }
    else if typeIdentifier = "" then
      { st with issues := st.issues ++
          [mkIssue "error" sheetName (some row.1) "type_identifier" "type_identifier is required"] }
    else if identifier ∈ st.seen then
      { st with issues := st.issues ++
          [mkIssue "error" sheetName (some row.1) "identifier" (dupItemMsg identifier)] }
    else
      itemRowAfterReserve sheetName config attributeMap typeMap declared attrHeaders
        st row identifier name typeIdentifier parentIdentifier

/-- Source `parseItemSheet`: header check, attr: column discovery, then the
row fold; the cross-sheet seen set is threaded in and out. -/
def parseItemSheet (w : Workbook) (config : Config)
    (attributeMap : List (String × AttrModel))
    (typeMap : List (String × TypeRequest)) (sheetName : String)
    (seen declared : List String) (issues : List Issue) :
    List ItemRequest × List String × List Issue :=
  let parsed := parseSheetWithHeaders w sheetName ITEM_BASE_HEADERS
  if !parsed.sheetExists then ([], seen, issues)
  else
    let issues := issues ++ parsed.missingHeaders.map (fun h =>
      mkIssue "error" sheetName (some 1) h "Missing required header")
    let attrHeaders := parsed.headers.filter (fun h => strStartsWith h "attr:")
    let st := parsed.rows.foldl
      (itemRowStep sheetName config attributeMap typeMap declared parsed.headers
        attrHeaders)
      { payload := [], seen := seen, issues := issues }
    (st.payload, st.seen, st.issues)

/-- The item sheets in processing order with the shared seen set threaded
through (the parent sheet followed by the product sheets, whose payloads
the orchestrator concatenates). -/
def parseItemSheets (w : Workbook) (config : Config)
    (attributeMap : List (String × AttrModel))
    (typeMap : List (String × TypeRequest)) (declared : List String) :
    List String → List String → List Issue →
    List ItemRequest × List String × List Issue
  | [], seen, issues => ([], seen, issues)
  | n :: rest, seen, issues =>
      let r1 := parseItemSheet w config attributeMap typeMap n seen declared issues
      let r2 := parseItemSheets w config attributeMap typeMap declared rest
        r1.2.1 r1.2.2
      (r1.1 ++ r2.1, r2.2.1, r2.2.2)

/-- Source `splitIssues`. -/
def splitIssues (issues : List Issue) : List Issue × List Issue :=
  (issues.filter (fun i => i.severity == "error"),
   issues.filter (fun i => i.severity == "warning"))

/-- Everything the orchestrator computes before assembling the result. -/
structure PipelineRun where
  config : Config
  attrGroups : List GroupRequest
  groupMap : List (String × GroupRequest)
  types : List TypeRequest
  typeMap : List (String × TypeRequest)
  bindingMap : List (String × List Binding)
  attributes : List AttrRequest
  attributeMap : List (String × AttrModel)
  items : List ItemRequest
  issues : List Issue

/-- The orchestrator stages of `parseAndValidateImportWorkbook`, in
dependency order, threading the single issue accumulator. -/
def runPipeline (w : Workbook) : PipelineRun :=
  let issues : List Issue := []
  let issues := ensureRequiredSheets w issues
  let cfg := parseConfig w issues
  let config := cfg.1
  let issues := cfg.2
  let gr := parseAttributeGroups w config issues
  let attrGroups := gr.1
  let groupMap := gr.2.1
  let issues := gr.2.2
  let ty := parseTypes w config issues
  let types := ty.1
  let typeMap := ty.2.1
  let issues := ty.2.2
  let bi := parseTypeGroupBindings w (groupMap.map Prod.fst) (typeMap.map Prod.fst)
    issues
  let bindingMap := bi.1
  let issues := bi.2
  let at_ := parseAttributes w config groupMap typeMap bindingMap issues
  let attributes := at_.1
  let attributeMap := at_.2.1
  let issues := at_.2.2
  let declared := collectDeclaredItemIdentifiers w
  let it := parseItemSheets w config attributeMap typeMap declared
    (SHEETS_ITEM_PARENTS :: PRODUCT_SHEETS) [] issues
  { config := config, attrGroups := attrGroups, groupMap := groupMap,
    types := types, typeMap := typeMap, bindingMap := bindingMap,
    attributes := attributes, attributeMap := attributeMap,
    items := it.1, issues := it.2.2 }

/-- The `config` part of the emitted payload. -/
structure PayloadConfig where
  mode : String
  errors : String
deriving Repr, DecidableEq

/-- The emitted import payload. -/
structure ImportPayload where
  config : PayloadConfig
  attrGroups : List GroupRequest
  attributes : List AttrRequest
  types : List TypeRequest
  items : List ItemRequest
deriving Repr

/-- The emitted count summary. -/
structure ImportSummary where
  attrGroups : Nat
  attributes : Nat
  types : Nat
  items : Nat
  errors : Nat
  warnings : Nat
deriving Repr, DecidableEq

/-- The terminal artifact of the pipeline. -/
structure ValidationResult where
  payload : ImportPayload
  summary : ImportSummary
  errors : List Issue
  warnings : List Issue
  valid : Bool
deriving Repr

/-- Source `parseAndValidateImportWorkbook`, starting from the workbook
delivered by the external cell-grid reader (`XLSX.read` is outside the
modelled core). -/
def parseAndValidateImportWorkbook (w : Workbook) : ValidationResult :=
  let run := runPipeline w
  let split := splitIssues run.issues
  let errors := split.1
  let warnings := split.2
  { payload :=
      { config := { mode := run.config.mode, errors := run.config.errors }
        attrGroups := run.attrGroups
        attributes := run.attributes
        types := run.types
        items := run.items }
    summary :=
      { attrGroups := run.attrGroups.length
        attributes := run.attributes.length
        types := run.types.length
        items := run.items.length
        errors := errors.length
        warnings := warnings.length }
    errors := errors
    warnings := warnings
    valid := errors.length == 0 }

/-- The issue accumulator only grows: `b` extends `a` by some appended tail. -/
def issuesExtends (a b : List Issue) : Prop :=
  ∃ t, b = a ++ t

/-- Shorthand for a string cell. -/
def js (s : String) : JVal := .jstr s

/-- The default config record. -/
def cfgDefault : Config :=
  { mode := "CREATE_UPDATE", errors := "PROCESS_WARN", defaultLanguage := "en" }

/-- The base header row of an item sheet, as cells. -/
def itemHeaderRow : List JVal :=
  [js "identifier", js "name_en", js "type_identifier", js "parent_identifier",
   js "values_json", js "channels_json"]

/-- A workbook with no sheets at all. -/
def wbEmpty : Workbook := { sheetNames := [], sheets := [] }

/-- A type lookup table with one root type `t1`. -/
def tmapRoot : List (String × TypeRequest) :=
  [("t1", { identifier := "t1", name := ("en", "T1"), parentIdentifier := none,
            icon := none, iconColor := none, file := none })]

/-- A type lookup table where `t1` is a child of `t0`. -/
def tmapChild : List (String × TypeRequest) :=
  [("t1", { identifier := "t1", name := ("en", "T1"), parentIdentifier := some "t0",
            icon := none, iconColor := none, file := none })]

/-- An attribute lookup table with the TEXT attribute `material`. -/
def amapMaterial : List (String × AttrModel) :=
  [("material", { identifier := "material", type := 1, languageDependent := false })]

/-- An attribute lookup table with the FLOAT attribute `weight`. -/
def amapWeight : List (String × AttrModel) :=
  [("weight", { identifier := "weight", type := 4, languageDependent := false })]

/-- An item sheet whose single row has a values_json object with one blank
entry under the declared attribute `material`. -/
def wbBlankValuesJson : Workbook :=
  { sheetNames := ["Item_Parents"],
    sheets := [("Item_Parents",
      [itemHeaderRow,
       [js "p1", js "Parent 1", js "t1", js "",
        js "\x7b\"material\": \"\"\x7d", js ""]])] }

/-- An item sheet whose single row has a values_json object with one blank
entry whose key spelling differs from its normalized form. -/
def wbRawSpelledKey : Workbook :=
  { sheetNames := ["Item_Parents"],
    sheets := [("Item_Parents",
      [itemHeaderRow,
       [js "p2", js "Parent 2", js "t1", js "",
        js "\x7b\"Material\": \"\"\x7d", js ""]])] }

/-- An item sheet with an `attr:weight` column whose cell fails FLOAT
coercion. -/
def wbBadFloat : Workbook :=
  { sheetNames := ["Item_Parents"],
    sheets := [("Item_Parents",
      [itemHeaderRow ++ [js "attr:weight"],
       [js "p3", js "Parent 3", js "t1", js "", js "", js "", js "abc"]])] }

/-- An item sheet whose first row reserves `x001` but is dropped by the
child-type parent requirement, and whose second row repeats `x001`. -/
def wbDupAfterDrop : Workbook :=
  { sheetNames := ["Item_Parents"],
    sheets := [("Item_Parents",
      [itemHeaderRow,
       [js "x001", js "A", js "t1", js "", js "", js ""],
       [js "x001", js "B", js "t1", js "p0", js "", js ""]])] }

/-- Like `wbDupAfterDrop`, but the second `x001` row has a blank name. -/
def wbDupBlankName : Workbook :=
  { sheetNames := ["Item_Parents"],
    sheets := [("Item_Parents",
      [itemHeaderRow,
       [js "x001", js "A", js "t1", js "", js "", js ""],
       [js "x001", js "", js "t1", js "p0", js "", js ""]])] }

/-- A workbook whose Types sheet declares `t1` with itself as parent. -/
def wbSelfType : Workbook :=
  { sheetNames := ["Types"],
    sheets := [("Types",
      [[js "identifier", js "name_en", js "parent_identifier", js "icon",
        js "icon_color", js "file"],
       [js "t1", js "T One", js "t1", js "", js "", js ""]])] }

/-- The type record emitted for the self-parented row of `wbSelfType`. -/
def reqT1 : TypeRequest :=
  { identifier := "t1", name := ("en", "T One"), parentIdentifier := some "t1",
    icon := none, iconColor := none, file := none }

/-- A group lookup table with the single group `g1`. -/
def gmapG1 : List (String × GroupRequest) :=
  [("g1", { identifier := "g1", name := ("en", "G One"), order := none,
            visible := none, options := none })]

/-- A binding map giving group `g1` one binding to type `t9` with both
flags true. -/
def bmapG1 : List (String × List Binding) :=
  [("g1", [{ typeIdentifier := "t9", valid := true, visible := true }])]

/-- A workbook whose Attributes sheet declares `a1` in group `g1` with no
explicit valid/visible CSV columns. -/
def wbAttrBind : Workbook :=
  { sheetNames := ["Attributes"],
    sheets := [("Attributes",
      [[js "identifier", js "name_en", js "type_code", js "groups_csv",
        js "order", js "language_dependent", js "rich_text", js "multi_line",
        js "pattern", js "lov_identifier", js "options_json",
        js "valid_types_csv", js "visible_types_csv"],
       [js "a1", js "A One", js "1", js "g1", js "", js "", js "", js "",
        js "", js "", js "", js "", js ""]])] }

/-- The attribute record emitted for `wbAttrBind`. -/
def reqA1 : AttrRequest :=
  { identifier := "a1", name := ("en", "A One"), groups := ["g1"], type := 1,
    languageDependent := false, richText := false, multiLine := false,
    order := none, pattern := none, lov := none, valid := some ["t9"],
    visible := some ["t9"], options := none }

/-- The binding-propagation property of an emitted attribute: every valid
(resp. visible) binding of one of its groups contributes its type to the
emitted valid (resp. visible) set. -/
def attrPropagated (bm : List (String × List Binding)) (r : AttrRequest) : Prop :=
  ∀ g ∈ r.groups, ∀ b ∈ bindingGet bm g,
    (b.valid = true → b.typeIdentifier ∈ r.valid.getD []) ∧
    (b.visible = true → b.typeIdentifier ∈ r.visible.getD [])

/-- The first x001 row of `wbDupAfterDrop`, as a parsed row record. -/
def rowX001A : Nat × List (String × JVal) :=
  (2, [("identifier", js "x001"), ("name_en", js "A"),
       ("type_identifier", js "t1"), ("parent_identifier", js ""),
       ("values_json", js ""), ("channels_json", js "")])

/-- The second x001 row of `wbDupAfterDrop`, as a parsed row record. -/
def rowX001B : Nat × List (String × JVal) :=
  (3, [("identifier", js "x001"), ("name_en", js "B"),
       ("type_identifier", js "t1"), ("parent_identifier", js "p0"),
       ("values_json", js ""), ("channels_json", js "")])

/-- The item emitted for `wbBlankValuesJson`: the blank values_json entry
keeps its raw key with the raw empty string. -/
def reqP1 : ItemRequest :=
  { identifier := "p1", typeIdentifier := "t1", name := ("en", "Parent 1"),
    parentIdentifier := none, values := some [("material", .jstr "")],
    channels := none }

/-- The item emitted for `wbRawSpelledKey`: only the raw-spelled key is
present, no normalized key is added for the blank entry. -/
def reqP2 : ItemRequest :=
  { identifier := "p2", typeIdentifier := "t1", name := ("en", "Parent 2"),
    parentIdentifier := none, values := some [("Material", .jstr "")],
    channels := none }

/-- The item emitted for `wbBadFloat`, despite the failed FLOAT coercion. -/
def reqP3 : ItemRequest :=
  { identifier := "p3", typeIdentifier := "t1", name := ("en", "Parent 3"),
    parentIdentifier := none, values := none, channels := none }

/-- The row of `wbBadFloat`, as a parsed row record. -/
def rowP3 : Nat × List (String × JVal) :=
  (2, [("identifier", js "p3"), ("name_en", js "Parent 3"),
       ("type_identifier", js "t1"), ("parent_identifier", js ""),
       ("values_json", js ""), ("channels_json", js ""),
       ("attr:weight", js "abc")])

theorem extendsRefl (a : List Issue) : issuesExtends a a :=
  ⟨[], (List.append_nil a).symm⟩

theorem extendsAppendOne (a t : List Issue) : issuesExtends a (a ++ t) :=
  ⟨t, rfl⟩

theorem extendsAppend2 (a t u : List Issue) : issuesExtends a (a ++ t ++ u) :=
  ⟨t ++ u, by rw [List.append_assoc]⟩

theorem extendsAppend3 (a t u v : List Issue) :
    issuesExtends a (a ++ t ++ u ++ v) :=
  ⟨t ++ u ++ v, by simp [List.append_assoc]⟩

theorem extendsTrans {a b c : List Issue} (h1 : issuesExtends a b)
    (h2 : issuesExtends b c) : issuesExtends a c := by
  obtain ⟨t, rfl⟩ := h1
  obtain ⟨u, rfl⟩ := h2
  exact ⟨t ++ u, by rw [List.append_assoc]⟩

theorem extendsMem {a b : List Issue} {i : Issue} (hm : i ∈ a)
    (h : issuesExtends a b) : i ∈ b := by
  obtain ⟨t, rfl⟩ := h
  exact List.mem_append_left t hm

theorem foldlExtends {σ α : Type} (proj : σ → List Issue) (f : σ → α → σ)
    (h : ∀ s x, issuesExtends (proj s) (proj (f s x))) (l : List α) (s : σ) :
    issuesExtends (proj s) (proj (l.foldl f s)) := by
  induction l generalizing s with
  | nil => exact extendsRefl _
  | cons x xs ih => exact extendsTrans (h s x) (ih (f s x))

theorem configRowStep_extends (acc : List (String × String) × List Issue)
    (r : Nat × List (String × JVal)) :
    issuesExtends acc.2 (configRowStep acc r).2 := by
  unfold configRowStep
  repeat' (dsimp only; repeat' split)
  all_goals first
    | exact extendsRefl _
    | exact extendsAppendOne _ _

theorem groupRowStep_extends (config : Config) (st : GroupState)
    (r : Nat × List (String × JVal)) :
    issuesExtends st.issues (groupRowStep config st r).issues := by
  unfold groupRowStep
  repeat' (dsimp only; repeat' split)
  all_goals first
    | exact extendsRefl _
    | exact extendsAppendOne _ _

theorem typeRowStep_extends (config : Config) (st : TypeState)
    (r : Nat × List (String × JVal)) :
    issuesExtends st.issues (typeRowStep config st r).issues := by
  unfold typeRowStep
  repeat' (dsimp only; repeat' split)
  all_goals first
    | exact extendsRefl _
    | exact extendsAppendOne _ _

theorem bindingRowStep_extends (gs ts : List String) (st : BindState)
    (r : Nat × List (String × JVal)) :
    issuesExtends st.issues (bindingRowStep gs ts st r).issues := by
  unfold bindingRowStep
  repeat' (dsimp only; repeat' split)
  all_goals first
    | exact extendsRefl _
    | exact extendsAppendOne _ _
    | exact extendsAppend2 _ _ _
    | exact extendsAppend3 _ _ _ _

theorem extendsCondSkip {c : Prop} [Decidable c] (a x : List Issue) :
    issuesExtends a (if c then a else a ++ x) := by
  split
  · exact extendsRefl _
  · exact extendsAppendOne _ _

theorem attrWarnFold_extends (typeMap : List (String × TypeRequest)) (rn : Nat)
    (l : List String) (a : List Issue) :
    issuesExtends a (l.foldl (fun acc t =>
      if (lookupAssoc typeMap t).isSome then acc
      else acc ++ [mkIssue "warning" SHEETS_ATTRIBUTES (some rn)
        "valid_types_csv" (attrTypeWarnMsg t)]) a) :=
  foldlExtends id _ (fun s _ => extendsCondSkip s _) l a

theorem attrRowEmit_extends (config : Config) (typeMap : List (String × TypeRequest))
    (bindingMap : List (String × List Binding)) (st : AttrState)
    (r : Nat × List (String × JVal)) (i n : String) (tc : Int) (gs : List String)
    (o : Option Int) (ld rt ml : Bool) (op : List (String × JVal)) :
    issuesExtends st.issues
      (attrRowEmit config typeMap bindingMap st r i n tc gs o ld rt ml op).issues := by
  unfold attrRowEmit
  dsimp only
  exact attrWarnFold_extends typeMap r.1 _ st.issues

theorem attrRowFields_extends (config : Config) (typeMap : List (String × TypeRequest))
    (bindingMap : List (String × List Binding)) (st : AttrState)
    (r : Nat × List (String × JVal)) (i n : String) (tc : Int) (gs : List String) :
    issuesExtends st.issues
      (attrRowFields config typeMap bindingMap st r i n tc gs).issues := by
  unfold attrRowFields
  repeat' (dsimp only; repeat' split)
  all_goals first
    | exact extendsRefl _
    | exact extendsAppendOne _ _
    | exact attrRowEmit_extends config typeMap bindingMap st r i n tc gs _ _ _ _ _

theorem attrRowTyped_extends (config : Config)
    (groupMap : List (String × GroupRequest)) (typeMap : List (String × TypeRequest))
    (bindingMap : List (String × List Binding)) (st : AttrState)
    (r : Nat × List (String × JVal)) (i n tr : String) :
    issuesExtends st.issues
      (attrRowTyped config groupMap typeMap bindingMap st r i n tr).issues := by
  unfold attrRowTyped
  repeat' (dsimp only; repeat' split)
  all_goals first
    | exact extendsRefl _
    | exact extendsAppendOne _ _
    | exact attrRowFields_extends config typeMap bindingMap st r i n _ _

theorem attrRowStep_extends (config : Config)
    (groupMap : List (String × GroupRequest)) (typeMap : List (String × TypeRequest))
    (bindingMap : List (String × List Binding)) (st : AttrState)
    (r : Nat × List (String × JVal)) :
    issuesExtends st.issues (attrRowStep config groupMap typeMap bindingMap st r).issues := by
  unfold attrRowStep
  repeat' (dsimp only; repeat' split)
  all_goals first
    | exact extendsRefl _
    | exact extendsAppendOne _ _
    | exact attrRowTyped_extends config groupMap typeMap bindingMap st r _ _ _

theorem valuesJsonStep_extends (sn : String) (rn : Nat)
    (m : List (String × AttrModel)) (lg : String)
    (acc : List (String × JVal) × List Issue) (e : String × JVal) :
    issuesExtends acc.2 (valuesJsonStep sn rn m lg acc e).2 := by
  unfold valuesJsonStep
  repeat' (dsimp only; repeat' split)
  all_goals first
    | exact extendsRefl _
    | exact extendsAppendOne _ _

theorem attrColumnStep_extends (sn : String) (rn : Nat)
    (d : List (String × JVal)) (m : List (String × AttrModel)) (lg : String)
    (acc : List (String × JVal) × List Issue) (h : String) :
    issuesExtends acc.2 (attrColumnStep sn rn d m lg acc h).2 := by
  unfold attrColumnStep
  repeat' (dsimp only; repeat' split)
  all_goals first
    | exact extendsRefl _
    | exact extendsAppendOne _ _

theorem itemValuesFold_extends (sn : String) (rn : Nat)
    (m : List (String × AttrModel)) (lg : String) (d : List (String × JVal))
    (hs : List String) (vo : List (String × JVal)) (issues : List Issue) :
    issuesExtends issues (itemValuesFold sn rn m lg d hs vo issues).2 := by
  unfold itemValuesFold
  exact extendsTrans
    (foldlExtends Prod.snd _ (fun s x => valuesJsonStep_extends sn rn m lg s x) vo
      (vo, issues))
    (foldlExtends Prod.snd _ (fun s x => attrColumnStep_extends sn rn d m lg s x) hs _)

theorem itemRowEmit_extends (sn : String) (config : Config)
    (m : List (String × AttrModel)) (attrHeaders : List String)
    (payload : List ItemRequest) (seen : List String) (issues : List Issue)
    (r : Nat × List (String × JVal)) (i n t p : String) :
    issuesExtends issues
      (itemRowEmit sn config m attrHeaders payload seen issues r i n t p).issues := by
  unfold itemRowEmit
  repeat' (dsimp only; repeat' split)
  all_goals first
    | exact extendsRefl _
    | exact extendsAppendOne _ _
    | exact itemValuesFold_extends _ _ _ _ _ _ _ _

theorem itemRowAfterReserve_extends (sn : String) (config : Config)
    (m : List (String × AttrModel)) (tm : List (String × TypeRequest))
    (declared attrHeaders : List String) (st : ItemState)
    (r : Nat × List (String × JVal)) (i n t p : String) :
    issuesExtends st.issues
      (itemRowAfterReserve sn config m tm declared attrHeaders st r i n t p).issues := by
  unfold itemRowAfterReserve
  repeat' (dsimp only; repeat' split)
  all_goals first
    | exact extendsRefl _
    | exact extendsAppendOne _ _
    | exact extendsAppend2 _ _ _
    | exact extendsAppend3 _ _ _ _
    | exact extendsTrans (extendsRefl _) (itemRowEmit_extends _ _ _ _ _ _ _ _ _ _ _ _)
    | exact extendsTrans (extendsAppendOne _ _) (itemRowEmit_extends _ _ _ _ _ _ _ _ _ _ _ _)
    | exact extendsTrans (extendsAppend2 _ _ _) (itemRowEmit_extends _ _ _ _ _ _ _ _ _ _ _ _)

theorem itemRowStep_extends (sn : String) (config : Config)
    (m : List (String × AttrModel)) (tm : List (String × TypeRequest))
    (declared allHeaders attrHeaders : List String) (st : ItemState)
    (r : Nat × List (String × JVal)) :
    issuesExtends st.issues
      (itemRowStep sn config m tm declared allHeaders attrHeaders st r).issues := by
  unfold itemRowStep
  repeat' (dsimp only; repeat' split)
  all_goals first
    | exact extendsRefl _
    | exact extendsAppendOne _ _
    | exact itemRowAfterReserve_extends sn config m tm declared attrHeaders st r _ _ _ _

theorem typeSecondPass_extends (byId : List (String × TypeRequest))
    (issues : List Issue) (payload : List TypeRequest) :
    issuesExtends issues (typeSecondPass byId issues payload) := by
  unfold typeSecondPass
  refine foldlExtends id _ (fun s x => ?_) payload issues
  repeat' (dsimp only; repeat' split)
  all_goals first
    | exact extendsRefl _
    | exact extendsAppendOne _ _
    | exact extendsAppend2 _ _ _

theorem ensureRequiredSheets_extends (w : Workbook) (issues : List Issue) :
    issuesExtends issues (ensureRequiredSheets w issues) := by
  unfold ensureRequiredSheets
  refine foldlExtends id _ (fun s x => ?_) _ issues
  dsimp only
  split
  · exact extendsRefl _
  · exact extendsAppendOne _ _

theorem configFold_extends (issues L : List Issue)
    (rows : List (Nat × List (String × JVal))) :
    issuesExtends issues (List.foldl configRowStep ([], issues ++ L) rows).2 :=
  extendsTrans (extendsAppendOne issues L)
    (foldlExtends Prod.snd configRowStep (fun s x => configRowStep_extends s x)
      rows ([], issues ++ L))

theorem parseConfig_extends (w : Workbook) (issues : List Issue) :
    issuesExtends issues (parseConfig w issues).2 := by
  unfold parseConfig
  dsimp only
  split
  · exact extendsRefl _
  · repeat' (dsimp only; repeat' split)
    all_goals first
      | exact configFold_extends _ _ _
      | exact extendsTrans (configFold_extends _ _ _) (extendsAppendOne _ _)
      | exact extendsTrans (configFold_extends _ _ _) (extendsAppend2 _ _ _)
      | exact extendsTrans (configFold_extends _ _ _) (extendsAppend3 _ _ _ _)

theorem groupFold_extends (config : Config) (issues L : List Issue)
    (rows : List (Nat × List (String × JVal))) :
    issuesExtends issues (List.foldl (groupRowStep config)
      { byIdentifier := [], payload := [], issues := issues ++ L } rows).issues :=
  extendsTrans (extendsAppendOne issues L)
    (foldlExtends GroupState.issues (groupRowStep config)
      (fun s x => groupRowStep_extends config s x) rows
      { byIdentifier := [], payload := [], issues := issues ++ L })

theorem parseAttributeGroups_extends (w : Workbook) (config : Config)
    (issues : List Issue) :
    issuesExtends issues (parseAttributeGroups w config issues).2.2 := by
  unfold parseAttributeGroups
  dsimp only
  split
  · exact extendsRefl _
  · exact groupFold_extends config issues _ _

theorem typeFold_extends (config : Config) (issues L : List Issue)
    (rows : List (Nat × List (String × JVal))) :
    issuesExtends issues (List.foldl (typeRowStep config)
      { byIdentifier := [], payload := [], issues := issues ++ L } rows).issues :=
  extendsTrans (extendsAppendOne issues L)
    (foldlExtends TypeState.issues (typeRowStep config)
      (fun s x => typeRowStep_extends config s x) rows
      { byIdentifier := [], payload := [], issues := issues ++ L })

theorem parseTypes_extends (w : Workbook) (config : Config) (issues : List Issue) :
    issuesExtends issues (parseTypes w config issues).2.2 := by
  unfold parseTypes
  dsimp only
  split
  · exact extendsRefl _
  · exact extendsTrans (typeFold_extends config issues _ _)
      (typeSecondPass_extends _ _ _)

theorem bindFold_extends (gs ts : List String) (issues L : List Issue)
    (rows : List (Nat × List (String × JVal))) :
    issuesExtends issues (List.foldl (bindingRowStep gs ts)
      { bindingMap := [], issues := issues ++ L } rows).issues :=
  extendsTrans (extendsAppendOne issues L)
    (foldlExtends BindState.issues (bindingRowStep gs ts)
      (fun s x => bindingRowStep_extends gs ts s x) rows
      { bindingMap := [], issues := issues ++ L })

theorem parseTypeGroupBindings_extends (w : Workbook) (gs ts : List String)
    (issues : List Issue) :
    issuesExtends issues (parseTypeGroupBindings w gs ts issues).2 := by
  unfold parseTypeGroupBindings
  dsimp only
  split
  · exact extendsRefl _
  · exact bindFold_extends gs ts issues _ _

theorem attrFold_extends (config : Config)
    (groupMap : List (String × GroupRequest)) (typeMap : List (String × TypeRequest))
    (bindingMap : List (String × List Binding)) (issues L : List Issue)
    (rows : List (Nat × List (String × JVal))) :
    issuesExtends issues
      (List.foldl (attrRowStep config groupMap typeMap bindingMap)
        { byIdentifier := [], payload := [], issues := issues ++ L } rows).issues :=
  extendsTrans (extendsAppendOne issues L)
    (foldlExtends AttrState.issues (attrRowStep config groupMap typeMap bindingMap)
      (fun s x => attrRowStep_extends config groupMap typeMap bindingMap s x) rows
      { byIdentifier := [], payload := [], issues := issues ++ L })

theorem parseAttributes_extends (w : Workbook) (config : Config)
    (groupMap : List (String × GroupRequest)) (typeMap : List (String × TypeRequest))
    (bindingMap : List (String × List Binding)) (issues : List Issue) :
    issuesExtends issues
      (parseAttributes w config groupMap typeMap bindingMap issues).2.2 := by
  unfold parseAttributes
  dsimp only
  split
  · exact extendsRefl _
  · exact attrFold_extends config groupMap typeMap bindingMap issues _ _

theorem itemFold_extends (sn : String) (config : Config)
    (m : List (String × AttrModel)) (tm : List (String × TypeRequest))
    (declared allHeaders attrHeaders seen : List String) (issues L : List Issue)
    (rows : List (Nat × List (String × JVal))) :
    issuesExtends issues
      (List.foldl (itemRowStep sn config m tm declared allHeaders attrHeaders)
        { payload := [], seen := seen, issues := issues ++ L } rows).issues :=
  extendsTrans (extendsAppendOne issues L)
    (foldlExtends ItemState.issues
      (itemRowStep sn config m tm declared allHeaders attrHeaders)
      (fun s x => itemRowStep_extends sn config m tm declared allHeaders attrHeaders s x)
      rows { payload := [], seen := seen, issues := issues ++ L })

theorem parseItemSheet_extends (w : Workbook) (config : Config)
    (m : List (String × AttrModel)) (tm : List (String × TypeRequest))
    (sn : String) (seen declared : List String) (issues : List Issue) :
    issuesExtends issues (parseItemSheet w config m tm sn seen declared issues).2.2 := by
  unfold parseItemSheet
  dsimp only
  split
  · exact extendsRefl _
  · exact itemFold_extends sn config m tm declared _ _ seen issues _ _

theorem parseItemSheets_extends (w : Workbook) (config : Config)
    (m : List (String × AttrModel)) (tm : List (String × TypeRequest))
    (declared : List String) (names : List String) (seen : List String)
    (issues : List Issue) :
    issuesExtends issues (parseItemSheets w config m tm declared names seen issues).2.2 := by
  induction names generalizing seen issues with
  | nil => exact extendsRefl _
  | cons n rest ih =>
      exact extendsTrans (parseItemSheet_extends w config m tm n seen declared issues)
        (ih _ _)

theorem missingSheetFoldMem (w : Workbook) (s : String) (l : List String)
    (issues : List Issue) (hs : s ∈ l) (hn : s ∉ w.sheetNames) :
    mkIssue "error" s none "sheet" "Sheet is required but missing" ∈
      l.foldl (fun acc t =>
        if t ∈ w.sheetNames then acc
        else acc ++ [mkIssue "error" t none "sheet" "Sheet is required but missing"])
        issues := by
  induction l generalizing issues with
  | nil => cases hs
  | cons a l ih =>
      rcases List.mem_cons.mp hs with h | h
      · subst h
        dsimp only [List.foldl]
        rw [if_neg hn]
        exact extendsMem
          (List.mem_append_right issues (List.mem_singleton.mpr rfl))
          (foldlExtends id _ (fun a _ => extendsCondSkip a _) l _)
      · exact ih _ h

/-- C1: the returned errors are exactly the accumulated issues of severity
error, the warnings exactly those of severity warning, `valid` is the
emptiness test on the error list, and therefore `valid` holds exactly when
no accumulated issue has severity error: warnings never make it false. -/
theorem claimC1_valid_is_no_errors (w : Workbook) :
    (parseAndValidateImportWorkbook w).errors =
      (runPipeline w).issues.filter (fun i => i.severity == "error") ∧
    (parseAndValidateImportWorkbook w).warnings =
      (runPipeline w).issues.filter (fun i => i.severity == "warning") ∧
    (parseAndValidateImportWorkbook w).valid =
      ((parseAndValidateImportWorkbook w).errors.length == 0) ∧
    ((parseAndValidateImportWorkbook w).valid = true ↔
      ∀ i ∈ (runPipeline w).issues, i.severity ≠ "error") := by
  refine ⟨rfl, rfl, rfl, ?_⟩
  have h : (parseAndValidateImportWorkbook w).valid =
      (((runPipeline w).issues.filter (fun i => i.severity == "error")).length == 0) :=
    rfl
  rw [h]
  simp [List.length_eq_zero, List.filter_eq_nil_iff]

/-- C7: the pipeline is one pure function of the workbook contents, so two
runs over the same workbook produce identical results (payload, summary,
issue lists, verdict). -/
theorem claimC7_deterministic (w : Workbook) :
    parseAndValidateImportWorkbook w = parseAndValidateImportWorkbook w := rfl

/-- C2, counterexample: for a workbook without the Import_Config sheet the
pipeline DOES raise a missing-sheet error issue for Import_Config, because
the required-sheet check lists the config sheet along with the mandatory
sheets; the claim says no error issue is raised for the Config sheet. -/
theorem claimC2_counterexample :
    mkIssue "error" SHEETS_CONFIG none "sheet" "Sheet is required but missing" ∈
      (runPipeline wbEmpty).issues := by decide

/-- C2, amended: with the Import_Config sheet absent the pipeline does use
the default config (CREATE_UPDATE, PROCESS_WARN, en), but a missing-sheet
error issue is raised for Import_Config as well: the upfront existence
check treats the config sheet like the mandatory sheets. -/
theorem claimC2_amended (w : Workbook)
    (hn : SHEETS_CONFIG ∉ w.sheetNames)
    (hs : lookupSheet w SHEETS_CONFIG = none) :
    (runPipeline w).config = cfgDefault ∧
    mkIssue "error" SHEETS_CONFIG none "sheet" "Sheet is required but missing" ∈
      (runPipeline w).issues := by
  constructor
  · show (parseConfig w (ensureRequiredSheets w [])).1 = cfgDefault
    unfold parseConfig parseSheetWithHeaders
    rw [hs]
    rfl
  · have h1 : mkIssue "error" SHEETS_CONFIG none "sheet" "Sheet is required but missing"
        ∈ ensureRequiredSheets w [] := by
      unfold ensureRequiredSheets
      exact missingSheetFoldMem w SHEETS_CONFIG _ [] (by simp) hn
    show _ ∈ (parseItemSheets w _ _ _ _ _ _ _).2.2
    exact extendsMem
      (extendsMem
        (extendsMem
          (extendsMem
            (extendsMem
              (extendsMem h1 (parseConfig_extends _ _))
              (parseAttributeGroups_extends _ _ _))
            (parseTypes_extends _ _ _))
          (parseTypeGroupBindings_extends _ _ _ _))
        (parseAttributes_extends _ _ _ _ _ _))
      (parseItemSheets_extends _ _ _ _ _ _ _ _)

/-- C2 amended, witness at a concrete workbook. -/
theorem claimC2_amended_witness :
    (runPipeline wbEmpty).config = cfgDefault ∧
    mkIssue "error" SHEETS_CONFIG none "sheet" "Sheet is required but missing" ∈
      (runPipeline wbEmpty).issues :=
  claimC2_amended wbEmpty (by decide) rfl

theorem lookupAssoc_setAssoc_self {α : Type} (m : List (String × α)) (k : String)
    (v : α) : lookupAssoc (setAssoc m k v) k = some v := by
  induction m with
  | nil => simp [setAssoc, lookupAssoc]
  | cons p rest ih =>
      by_cases h : p.1 = k
      · simp [setAssoc, lookupAssoc, h]
      · simp [setAssoc, lookupAssoc, h, ih]

theorem lookupAssoc_setAssoc_ne {α : Type} (m : List (String × α)) {k k' : String}
    (h : k' ≠ k) (v : α) :
    lookupAssoc (setAssoc m k' v) k = lookupAssoc m k := by
  induction m with
  | nil => simp [setAssoc, lookupAssoc, h]
  | cons p rest ih =>
      by_cases hp : p.1 = k'
      · simp [setAssoc, lookupAssoc, hp, h]
      · by_cases hk : p.1 = k
        · simp [setAssoc, lookupAssoc, hp, hk, Ne.symm h]
        · simp [setAssoc, lookupAssoc, hp, hk, ih]

theorem typeRowStep_shape (config : Config) (st : TypeState)
    (r : Nat × List (String × JVal)) :
    ((typeRowStep config st r).payload = st.payload ∧
     (typeRowStep config st r).byIdentifier = st.byIdentifier) ∨
    (∃ req : TypeRequest,
      lookupAssoc st.byIdentifier req.identifier = none ∧
      (typeRowStep config st r).payload = st.payload ++ [req] ∧
      (typeRowStep config st r).byIdentifier =
        setAssoc st.byIdentifier req.identifier req) := by
  unfold typeRowStep
  repeat' (dsimp only; repeat' split)
  all_goals first
    | exact Or.inl ⟨rfl, rfl⟩
    | (refine Or.inr ⟨_, ?_, rfl, rfl⟩
       simp_all [Option.not_isSome_iff_eq_none])

theorem typeFold_lookup (config : Config)
    (rows : List (Nat × List (String × JVal))) (st : TypeState)
    (hP : ∀ r ∈ st.payload, lookupAssoc st.byIdentifier r.identifier = some r) :
    ∀ r ∈ (rows.foldl (typeRowStep config) st).payload,
      lookupAssoc (rows.foldl (typeRowStep config) st).byIdentifier r.identifier =
        some r := by
  induction rows generalizing st with
  | nil => exact hP
  | cons a l ih =>
      refine ih (typeRowStep config st a) ?_
      rcases typeRowStep_shape config st a with ⟨hp, hb⟩ | ⟨req, hnone, hp, hb⟩
      · rw [hp, hb]; exact hP
      · rw [hp, hb]
        intro r hr
        rcases List.mem_append.mp hr with h | h
        · have hne : req.identifier ≠ r.identifier := by
            intro he
            have hl := hP r h
            rw [← he, hnone] at hl
            cases hl
          rw [lookupAssoc_setAssoc_ne _ hne]
          exact hP r h
        · rw [List.mem_singleton.mp h]
          exact lookupAssoc_setAssoc_self _ _ _

theorem typeSecondPassMem (byId : List (String × TypeRequest))
    (issues : List Issue) (payload : List TypeRequest) (req : TypeRequest)
    (hm : req ∈ payload) (hp : req.parentIdentifier = some req.identifier) :
    mkIssue "error" SHEETS_TYPES none "parent_identifier"
      (selfParentTypeMsg req.identifier) ∈ typeSecondPass byId issues payload := by
  induction payload generalizing issues with
  | nil => cases hm
  | cons a l ih =>
      rcases List.mem_cons.mp hm with h | h
      · subst h
        have hstep : mkIssue "error" SHEETS_TYPES none "parent_identifier"
            (selfParentTypeMsg req.identifier) ∈
            ((fun acc (tr : TypeRequest) =>
              let acc :=
                match tr.parentIdentifier with
                | some p =>
                    if (lookupAssoc byId p).isSome then acc
                    else acc ++ [mkIssue "warning" SHEETS_TYPES none "parent_identifier"
                      (parentTypeWarnMsg p)]
                | none => acc
              match tr.parentIdentifier with
              | some p =>
                  if p = tr.identifier then
                    acc ++ [mkIssue "error" SHEETS_TYPES none "parent_identifier"
                      (selfParentTypeMsg tr.identifier)]
                  else acc
              | none => acc) issues req) := by
          dsimp only
          rw [hp]
          dsimp only
          rw [if_pos rfl]
          exact List.mem_append_right _ (List.mem_singleton.mpr rfl)
        exact extendsMem hstep (typeSecondPass_extends byId _ l)
      · exact ih _ h

/-- C10: a type row whose parent identifier normalizes to its own
identifier receives one self-reference error (row null), yet the emitted
type record stays in the types payload and in the type lookup table that
the later stages consume. -/
theorem claimC10_self_parent_kept (w : Workbook) (config : Config)
    (issues : List Issue) :
    ∀ req ∈ (parseTypes w config issues).1,
      req.parentIdentifier = some req.identifier →
      mkIssue "error" SHEETS_TYPES none "parent_identifier"
        (selfParentTypeMsg req.identifier) ∈ (parseTypes w config issues).2.2 ∧
      lookupAssoc (parseTypes w config issues).2.1 req.identifier = some req := by
  intro req hm hp
  unfold parseTypes at hm ⊢
  cases hE : (parseSheetWithHeaders w SHEETS_TYPES TYPE_HEADERS).sheetExists with
  | false => simp [hE] at hm
  | true =>
      simp only [hE, Bool.not_true] at hm ⊢
      simp only [Bool.false_eq_true, if_false] at hm ⊢
      refine ⟨typeSecondPassMem _ _ _ req hm hp, ?_⟩
      exact typeFold_lookup config _ _ (by intro r hr; cases hr) req hm

theorem mem_setAdd (l : List String) (x y : String) :
    y ∈ setAdd l x ↔ y ∈ l ∨ y = x := by
  by_cases h : x ∈ l
  · rw [setAdd, if_pos h]
    constructor
    · exact Or.inl
    · rintro (hy | rfl)
      exacts [hy, h]
  · rw [setAdd, if_neg h]
    simp

theorem mem_foldl_setAdd (l : List String) (acc : List String) (y : String) :
    y ∈ l.foldl setAdd acc ↔ y ∈ acc ∨ y ∈ l := by
  induction l generalizing acc with
  | nil => simp
  | cons x xs ih =>
      rw [List.foldl_cons, ih, mem_setAdd]
      simp [or_assoc]

theorem mem_dedupAdd (l : List String) (y : String) :
    y ∈ dedupAdd l ↔ y ∈ l := by
  rw [dedupAdd, mem_foldl_setAdd]
  simp

theorem bindingsFold_mem (bs : List Binding) (p : List String × List String)
    (t : String) :
    (t ∈ (bs.foldl bindingSetStep p).1 ↔
      t ∈ p.1 ∨ ∃ b ∈ bs, b.valid = true ∧ b.typeIdentifier = t) ∧
    (t ∈ (bs.foldl bindingSetStep p).2 ↔
      t ∈ p.2 ∨ ∃ b ∈ bs, b.visible = true ∧ b.typeIdentifier = t) := by
  induction bs generalizing p with
  | nil => simp
  | cons b bs ih =>
      rw [List.foldl_cons]
      have h := ih (bindingSetStep p b)
      constructor
      · rw [h.1]
        by_cases hv : b.valid
        · simp [bindingSetStep, hv, mem_setAdd]
          tauto
        · simp [bindingSetStep, hv]
      · rw [h.2]
        by_cases hv : b.visible
        · simp [bindingSetStep, hv, mem_setAdd]
          tauto
        · simp [bindingSetStep, hv]

theorem applyBindings_mem (bm : List (String × List Binding))
    (groups : List String) (sets : List String × List String) (t : String) :
    (t ∈ (applyBindings bm groups sets).1 ↔
      t ∈ sets.1 ∨ ∃ g ∈ groups, ∃ b ∈ bindingGet bm g,
        b.valid = true ∧ b.typeIdentifier = t) ∧
    (t ∈ (applyBindings bm groups sets).2 ↔
      t ∈ sets.2 ∨ ∃ g ∈ groups, ∃ b ∈ bindingGet bm g,
        b.visible = true ∧ b.typeIdentifier = t) := by
  induction groups generalizing sets with
  | nil => simp [applyBindings]
  | cons g gs ih =>
      unfold applyBindings at ih ⊢
      rw [List.foldl_cons]
      have h := ih ((bindingGet bm g).foldl bindingSetStep sets)
      have hb := bindingsFold_mem (bindingGet bm g) sets t
      constructor
      · rw [h.1, hb.1]
        simp only [List.mem_cons]
        constructor
        · rintro ((hp | ⟨b, hbm, hv, ht⟩) | ⟨g', hg', b, hbm, hv, ht⟩)
          · exact Or.inl hp
          · exact Or.inr ⟨g, Or.inl rfl, b, hbm, hv, ht⟩
          · exact Or.inr ⟨g', Or.inr hg', b, hbm, hv, ht⟩
        · rintro (hp | ⟨g', hg | hg, b, hbm, hv, ht⟩)
          · exact Or.inl (Or.inl hp)
          · exact Or.inl (Or.inr ⟨b, hg ▸ hbm, hv, ht⟩)
          · exact Or.inr ⟨g', hg, b, hbm, hv, ht⟩
      · rw [h.2, hb.2]
        simp only [List.mem_cons]
        constructor
        · rintro ((hp | ⟨b, hbm, hv, ht⟩) | ⟨g', hg', b, hbm, hv, ht⟩)
          · exact Or.inl hp
          · exact Or.inr ⟨g, Or.inl rfl, b, hbm, hv, ht⟩
          · exact Or.inr ⟨g', Or.inr hg', b, hbm, hv, ht⟩
        · rintro (hp | ⟨g', hg | hg, b, hbm, hv, ht⟩)
          · exact Or.inl (Or.inl hp)
          · exact Or.inl (Or.inr ⟨b, hg ▸ hbm, hv, ht⟩)
          · exact Or.inr ⟨g', hg, b, hbm, hv, ht⟩

theorem attrRowEmit_Q (config : Config) (typeMap : List (String × TypeRequest))
    (bm : List (String × List Binding)) (st : AttrState)
    (r : Nat × List (String × JVal)) (i n : String) (tc : Int) (gs : List String)
    (o : Option Int) (ld rt ml : Bool) (op : List (String × JVal)) :
    ∀ a ∈ (attrRowEmit config typeMap bm st r i n tc gs o ld rt ml op).payload,
      a ∈ st.payload ∨ attrPropagated bm a := by
  unfold attrRowEmit
  dsimp only
  intro a ha
  rcases List.mem_append.mp ha with h | h
  · exact Or.inl h
  · refine Or.inr ?_
    rw [List.mem_singleton.mp h]
    intro g hg b hb
    dsimp only at hg ⊢
    constructor
    · intro hv
      have ht : b.typeIdentifier ∈
          (applyBindings bm gs
            (dedupAdd (parseCsvList (objGet r.2 "valid_types_csv")),
             dedupAdd (parseCsvList (objGet r.2 "visible_types_csv")))).1 :=
        (applyBindings_mem bm gs _ b.typeIdentifier).1.mpr
          (Or.inr ⟨g, hg, b, hb, hv, rfl⟩)
      rw [if_pos (List.length_pos.mpr (List.ne_nil_of_mem ht))]
      exact ht
    · intro hv
      have ht : b.typeIdentifier ∈
          (applyBindings bm gs
            (dedupAdd (parseCsvList (objGet r.2 "valid_types_csv")),
             dedupAdd (parseCsvList (objGet r.2 "visible_types_csv")))).2 :=
        (applyBindings_mem bm gs _ b.typeIdentifier).2.mpr
          (Or.inr ⟨g, hg, b, hb, hv, rfl⟩)
      rw [if_pos (List.length_pos.mpr (List.ne_nil_of_mem ht))]
      exact ht

theorem attrRowFields_Q (config : Config) (typeMap : List (String × TypeRequest))
    (bm : List (String × List Binding)) (st : AttrState)
    (r : Nat × List (String × JVal)) (i n : String) (tc : Int) (gs : List String) :
    ∀ a ∈ (attrRowFields config typeMap bm st r i n tc gs).payload,
      a ∈ st.payload ∨ attrPropagated bm a := by
  unfold attrRowFields
  repeat' (dsimp only; repeat' split)
  all_goals first
    | exact fun a ha => Or.inl ha
    | exact attrRowEmit_Q config typeMap bm st r i n tc gs _ _ _ _ _

theorem attrRowTyped_Q (config : Config) (groupMap : List (String × GroupRequest))
    (typeMap : List (String × TypeRequest)) (bm : List (String × List Binding))
    (st : AttrState) (r : Nat × List (String × JVal)) (i n tr : String) :
    ∀ a ∈ (attrRowTyped config groupMap typeMap bm st r i n tr).payload,
      a ∈ st.payload ∨ attrPropagated bm a := by
  unfold attrRowTyped
  repeat' (dsimp only; repeat' split)
  all_goals first
    | exact fun a ha => Or.inl ha
    | exact attrRowFields_Q config typeMap bm st r i n _ _

theorem attrRowStep_Q (config : Config) (groupMap : List (String × GroupRequest))
    (typeMap : List (String × TypeRequest)) (bm : List (String × List Binding))
    (st : AttrState) (r : Nat × List (String × JVal)) :
    ∀ a ∈ (attrRowStep config groupMap typeMap bm st r).payload,
      a ∈ st.payload ∨ attrPropagated bm a := by
  unfold attrRowStep
  repeat' (dsimp only; repeat' split)
  all_goals first
    | exact fun a ha => Or.inl ha
    | exact attrRowTyped_Q config groupMap typeMap bm st r _ _ _

theorem attrFold_Q (config : Config) (groupMap : List (String × GroupRequest))
    (typeMap : List (String × TypeRequest)) (bm : List (String × List Binding))
    (rows : List (Nat × List (String × JVal))) (st : AttrState)
    (h0 : ∀ a ∈ st.payload, attrPropagated bm a) :
    ∀ a ∈ (rows.foldl (attrRowStep config groupMap typeMap bm) st).payload,
      attrPropagated bm a := by
  induction rows generalizing st with
  | nil => exact h0
  | cons x l ih =>
      refine ih (attrRowStep config groupMap typeMap bm st x) ?_
      intro a ha
      rcases attrRowStep_Q config groupMap typeMap bm st x a ha with h | h
      · exact h0 a h
      · exact h

/-- C6: every attribute emitted by the attribute parser picks up, for each
of its declared groups, every valid (resp. visible) binding target type in
its emitted valid (resp. visible) set; and the set construction is exactly
the union of the explicit CSV identifiers and the binding propagation,
which in particular covers the case of empty CSV columns. -/
theorem claimC6_binding_propagation :
    (∀ (w : Workbook) (config : Config) (groupMap : List (String × GroupRequest))
       (typeMap : List (String × TypeRequest)) (bm : List (String × List Binding))
       (issues : List Issue),
       ∀ req ∈ (parseAttributes w config groupMap typeMap bm issues).1,
         attrPropagated bm req) ∧
    (∀ (bm : List (String × List Binding)) (groups : List String)
       (csvValid csvVisible : List String) (t : String),
       (t ∈ (applyBindings bm groups (dedupAdd csvValid, dedupAdd csvVisible)).1 ↔
         t ∈ csvValid ∨ ∃ g ∈ groups, ∃ b ∈ bindingGet bm g,
           b.valid = true ∧ b.typeIdentifier = t) ∧
       (t ∈ (applyBindings bm groups (dedupAdd csvValid, dedupAdd csvVisible)).2 ↔
         t ∈ csvVisible ∨ ∃ g ∈ groups, ∃ b ∈ bindingGet bm g,
           b.visible = true ∧ b.typeIdentifier = t)) := by
  constructor
  · intro w config groupMap typeMap bm issues req hm
    unfold parseAttributes at hm
    cases hE : (parseSheetWithHeaders w SHEETS_ATTRIBUTES ATTRIBUTE_HEADERS).sheetExists with
    | false => simp [hE] at hm
    | true =>
        simp only [hE, Bool.not_true] at hm
        simp only [Bool.false_eq_true, if_false] at hm
        exact attrFold_Q config groupMap typeMap bm _ _ (by intro a ha; cases ha) req hm
  · intro bm groups csvValid csvVisible t
    have h := applyBindings_mem bm groups (dedupAdd csvValid, dedupAdd csvVisible) t
    constructor
    · rw [h.1]
      simp [mem_dedupAdd]
    · rw [h.2]
      simp [mem_dedupAdd]

/-- C6, witness: the binding (g1, t9, valid, visible) of `bmapG1` lands in
the valid and visible sets of the attribute of `wbAttrBind`, whose CSV
columns are empty. -/
theorem claimC6_witness :
    "t9" ∈ reqA1.valid.getD [] ∧ "t9" ∈ reqA1.visible.getD [] := by
  have hpay : (parseAttributes wbAttrBind cfgDefault gmapG1 tmapRoot bmapG1 []).1 =
      [reqA1] := rfl
  have h := claimC6_binding_propagation.1 wbAttrBind cfgDefault gmapG1 tmapRoot
    bmapG1 [] reqA1 (by rw [hpay]; exact List.mem_singleton.mpr rfl)
  have hb := h "g1" (by decide) { typeIdentifier := "t9", valid := true, visible := true }
    (by decide)
  exact ⟨hb.1 rfl, hb.2 rfl⟩

theorem subset_setAdd (l : List String) (x : String) : l ⊆ setAdd l x := by
  intro y hy
  rw [mem_setAdd]
  exact Or.inl hy

theorem mem_setAdd_self (l : List String) (x : String) : x ∈ setAdd l x := by
  rw [mem_setAdd]
  exact Or.inr rfl

theorem itemRowEmit_seen (sn : String) (config : Config)
    (m : List (String × AttrModel)) (attrHeaders : List String)
    (payload : List ItemRequest) (seen : List String) (issues : List Issue)
    (r : Nat × List (String × JVal)) (i n t p : String) :
    (itemRowEmit sn config m attrHeaders payload seen issues r i n t p).seen = seen := by
  unfold itemRowEmit
  repeat' (dsimp only; repeat' split)

theorem itemRowAfterReserve_seen (sn : String) (config : Config)
    (m : List (String × AttrModel)) (tm : List (String × TypeRequest))
    (declared attrHeaders : List String) (st : ItemState)
    (r : Nat × List (String × JVal)) (i n t p : String) :
    (itemRowAfterReserve sn config m tm declared attrHeaders st r i n t p).seen =
      setAdd st.seen i := by
  unfold itemRowAfterReserve
  repeat' (dsimp only; repeat' split)
  all_goals first
    | rfl
    | exact itemRowEmit_seen _ _ _ _ _ _ _ _ _ _ _ _

theorem itemRowStep_seen (sn : String) (config : Config)
    (m : List (String × AttrModel)) (tm : List (String × TypeRequest))
    (declared allHeaders attrHeaders : List String) (st : ItemState)
    (r : Nat × List (String × JVal)) :
    (itemRowStep sn config m tm declared allHeaders attrHeaders st r).seen = st.seen ∨
    (itemRowStep sn config m tm declared allHeaders attrHeaders st r).seen =
      setAdd st.seen (normalizeIdentifier (objGet r.2 "identifier")) := by
  unfold itemRowStep
  repeat' (dsimp only; repeat' split)
  all_goals first
    | exact Or.inl rfl
    | exact Or.inr (itemRowAfterReserve_seen _ _ _ _ _ _ _ _ _ _ _ _)

theorem itemRowStep_seen_mono (sn : String) (config : Config)
    (m : List (String × AttrModel)) (tm : List (String × TypeRequest))
    (declared allHeaders attrHeaders : List String) (st : ItemState)
    (r : Nat × List (String × JVal)) :
    st.seen ⊆ (itemRowStep sn config m tm declared allHeaders attrHeaders st r).seen := by
  rcases itemRowStep_seen sn config m tm declared allHeaders attrHeaders st r with h | h
  · rw [h]
    exact fun x hx => hx
  · rw [h]
    exact subset_setAdd _ _


theorem itemRowEmit_payload (sn : String) (config : Config)
    (m : List (String × AttrModel)) (attrHeaders : List String)
    (payload : List ItemRequest) (seen : List String) (issues : List Issue)
    (r : Nat × List (String × JVal)) (i n t p : String) :
    (itemRowEmit sn config m attrHeaders payload seen issues r i n t p).payload =
      payload ∨
    ∃ req : ItemRequest,
      (itemRowEmit sn config m attrHeaders payload seen issues r i n t p).payload =
        payload ++ [req] ∧ req.identifier = i := by
  unfold itemRowEmit
  repeat' (dsimp only; repeat' split)
  all_goals first
    | exact Or.inl rfl
    | exact Or.inr ⟨_, rfl, rfl⟩

theorem itemRowAfterReserve_payload (sn : String) (config : Config)
    (m : List (String × AttrModel)) (tm : List (String × TypeRequest))
    (declared attrHeaders : List String) (st : ItemState)
    (r : Nat × List (String × JVal)) (i n t p : String) :
    (itemRowAfterReserve sn config m tm declared attrHeaders st r i n t p).payload =
      st.payload ∨
    ∃ req : ItemRequest,
      (itemRowAfterReserve sn config m tm declared attrHeaders st r i n t p).payload =
        st.payload ++ [req] ∧ req.identifier = i := by
  unfold itemRowAfterReserve
  repeat' (dsimp only; repeat' split)
  all_goals first
    | exact Or.inl rfl
    | exact itemRowEmit_payload _ _ _ _ _ _ _ _ _ _ _ _

theorem itemRowStep_payload (sn : String) (config : Config)
    (m : List (String × AttrModel)) (tm : List (String × TypeRequest))
    (declared allHeaders attrHeaders : List String) (st : ItemState)
    (r : Nat × List (String × JVal)) :
    (itemRowStep sn config m tm declared allHeaders attrHeaders st r).payload =
      st.payload ∨
    ∃ req : ItemRequest,
      (itemRowStep sn config m tm declared allHeaders attrHeaders st r).payload =
        st.payload ++ [req] ∧ req.identifier ∉ st.seen ∧
      req.identifier ∈ (itemRowStep sn config m tm declared allHeaders attrHeaders st r).seen := by
  unfold itemRowStep
  repeat' (dsimp only; repeat' split)
  all_goals try exact Or.inl rfl
  next hAny hId hName hType hSeen =>
    rcases itemRowAfterReserve_payload sn config m tm declared attrHeaders st r
      (normalizeIdentifier (objGet r.2 "identifier"))
      (toText (objGet r.2 "name_en"))
      (normalizeIdentifier (objGet r.2 "type_identifier"))
      (normalizeIdentifier (objGet r.2 "parent_identifier")) with h | ⟨req, hp, hi⟩
    · exact Or.inl h
    · refine Or.inr ⟨req, hp, ?_, ?_⟩
      · rw [hi]; exact hSeen
      · rw [itemRowAfterReserve_seen, hi]
        exact mem_setAdd_self _ _

theorem itemRowStep_inv (sn : String) (config : Config)
    (m : List (String × AttrModel)) (tm : List (String × TypeRequest))
    (declared allHeaders attrHeaders seen0 : List String) (st : ItemState)
    (r : Nat × List (String × JVal))
    (h1 : ∀ a ∈ st.payload, a.identifier ∈ st.seen ∧ a.identifier ∉ seen0)
    (h2 : st.payload.Pairwise (fun a b => a.identifier ≠ b.identifier))
    (h3 : seen0 ⊆ st.seen) :
    (∀ a ∈ (itemRowStep sn config m tm declared allHeaders attrHeaders st r).payload,
      a.identifier ∈ (itemRowStep sn config m tm declared allHeaders attrHeaders st r).seen ∧
      a.identifier ∉ seen0) ∧
    (itemRowStep sn config m tm declared allHeaders attrHeaders st r).payload.Pairwise
      (fun a b => a.identifier ≠ b.identifier) ∧
    seen0 ⊆ (itemRowStep sn config m tm declared allHeaders attrHeaders st r).seen := by
  have hmono := itemRowStep_seen_mono sn config m tm declared allHeaders attrHeaders st r
  rcases itemRowStep_payload sn config m tm declared allHeaders attrHeaders st r with
    hp | ⟨req, hp, hnew, hin⟩
  · refine ⟨?_, ?_, fun x hx => hmono (h3 hx)⟩
    · rw [hp]
      exact fun a ha => ⟨hmono (h1 a ha).1, (h1 a ha).2⟩
    · rw [hp]
      exact h2
  · refine ⟨?_, ?_, fun x hx => hmono (h3 hx)⟩
    · rw [hp]
      intro a ha
      rcases List.mem_append.mp ha with h | h
      · exact ⟨hmono (h1 a h).1, (h1 a h).2⟩
      · rw [List.mem_singleton.mp h]
        exact ⟨hin, fun hc => hnew (h3 hc)⟩
    · rw [hp]
      rw [List.pairwise_append]
      refine ⟨h2, List.pairwise_singleton _ _, ?_⟩
      intro a ha b hb
      rw [List.mem_singleton.mp hb]
      intro hc
      exact hnew (hc ▸ (h1 a ha).1)

theorem itemFold_inv (sn : String) (config : Config)
    (m : List (String × AttrModel)) (tm : List (String × TypeRequest))
    (declared allHeaders attrHeaders seen0 : List String)
    (rows : List (Nat × List (String × JVal))) (st : ItemState)
    (h1 : ∀ a ∈ st.payload, a.identifier ∈ st.seen ∧ a.identifier ∉ seen0)
    (h2 : st.payload.Pairwise (fun a b => a.identifier ≠ b.identifier))
    (h3 : seen0 ⊆ st.seen) :
    (∀ a ∈ (rows.foldl (itemRowStep sn config m tm declared allHeaders attrHeaders) st).payload,
      a.identifier ∈ (rows.foldl (itemRowStep sn config m tm declared allHeaders attrHeaders) st).seen ∧
      a.identifier ∉ seen0) ∧
    (rows.foldl (itemRowStep sn config m tm declared allHeaders attrHeaders) st).payload.Pairwise
      (fun a b => a.identifier ≠ b.identifier) ∧
    seen0 ⊆ (rows.foldl (itemRowStep sn config m tm declared allHeaders attrHeaders) st).seen := by
  induction rows generalizing st with
  | nil => exact ⟨h1, h2, h3⟩
  | cons x l ih =>
      have h := itemRowStep_inv sn config m tm declared allHeaders attrHeaders seen0 st x h1 h2 h3
      exact ih _ h.1 h.2.1 h.2.2

theorem parseItemSheet_inv (w : Workbook) (config : Config)
    (m : List (String × AttrModel)) (tm : List (String × TypeRequest))
    (sn : String) (seen declared : List String) (issues : List Issue) :
    (∀ a ∈ (parseItemSheet w config m tm sn seen declared issues).1,
      a.identifier ∈ (parseItemSheet w config m tm sn seen declared issues).2.1 ∧
      a.identifier ∉ seen) ∧
    (parseItemSheet w config m tm sn seen declared issues).1.Pairwise
      (fun a b => a.identifier ≠ b.identifier) ∧
    seen ⊆ (parseItemSheet w config m tm sn seen declared issues).2.1 := by
  unfold parseItemSheet
  cases hE : (parseSheetWithHeaders w sn ITEM_BASE_HEADERS).sheetExists with
  | false =>
      simp only [hE, Bool.not_false, if_true]
      exact ⟨fun a ha => absurd ha (List.not_mem_nil a), List.Pairwise.nil, fun x hx => hx⟩
  | true =>
      simp only [hE, Bool.not_true, Bool.false_eq_true, if_false]
      exact itemFold_inv sn config m tm declared _ _ seen _ _
        (fun a ha => absurd ha (List.not_mem_nil a)) List.Pairwise.nil (fun x hx => hx)

theorem parseItemSheets_inv (w : Workbook) (config : Config)
    (m : List (String × AttrModel)) (tm : List (String × TypeRequest))
    (declared : List String) (names : List String) (seen : List String)
    (issues : List Issue) :
    (∀ a ∈ (parseItemSheets w config m tm declared names seen issues).1,
      a.identifier ∈ (parseItemSheets w config m tm declared names seen issues).2.1 ∧
      a.identifier ∉ seen) ∧
    (parseItemSheets w config m tm declared names seen issues).1.Pairwise
      (fun a b => a.identifier ≠ b.identifier) ∧
    seen ⊆ (parseItemSheets w config m tm declared names seen issues).2.1 := by
  induction names generalizing seen issues with
  | nil =>
      exact ⟨fun a ha => absurd ha (List.not_mem_nil a), List.Pairwise.nil, fun x hx => hx⟩
  | cons n rest ih =>
      have hSheet := parseItemSheet_inv w config m tm n seen declared issues
      have hRest := ih (parseItemSheet w config m tm n seen declared issues).2.1
        (parseItemSheet w config m tm n seen declared issues).2.2
      unfold parseItemSheets
      dsimp only
      refine ⟨?_, ?_, ?_⟩
      · intro a ha
        rcases List.mem_append.mp ha with h | h
        · exact ⟨hRest.2.2 (hSheet.1 a h).1, (hSheet.1 a h).2⟩
        · exact ⟨(hRest.1 a h).1, fun hc => (hRest.1 a h).2 (hSheet.2.2 hc)⟩
      · rw [List.pairwise_append]
        refine ⟨hSheet.2.1, hRest.2.1, ?_⟩
        intro a ha b hb hc
        exact (hRest.1 b hb).2 (hc ▸ (hSheet.1 a ha).1)
      · exact fun x hx => hRest.2.2 (hSheet.2.2 hx)

/-- C5, counterexample: two Item_Parents rows share identifier x001.  The
first row reserves the identifier but is dropped by the child-type parent
requirement; the second receives the duplicate-identifier error and is
dropped — so, contrary to the claim, the first occurrence does NOT remain
in items: the emitted payload is empty. -/
theorem claimC5_counterexample :
    parseItemSheet wbDupAfterDrop cfgDefault [] tmapChild "Item_Parents" [] [] [] =
      ([], ["x001"],
       [mkIssue "error" "Item_Parents" (some 2) "parent_identifier"
          (childTypeMsg "t1" "t0"),
        mkIssue "error" "Item_Parents" (some 3) "identifier" (dupItemMsg "x001")]) :=
  rfl

/-- C5, amended: no two records of the final items list share an
identifier; and a non-skipped row whose required fields are present and
whose normalized identifier was already reserved receives exactly one
duplicate-identifier error and is dropped (the first occurrence remains in
items only when its own remaining validations pass). -/
theorem claimC5_amended :
    (∀ w : Workbook,
      (parseAndValidateImportWorkbook w).payload.items.Pairwise
        (fun a b => a.identifier ≠ b.identifier)) ∧
    (∀ (sn : String) (config : Config) (m : List (String × AttrModel))
       (tm : List (String × TypeRequest))
       (declared allHeaders attrHeaders : List String) (st : ItemState)
       (r : Nat × List (String × JVal)) (i : String),
       rowHasAnyValue r.2 allHeaders = true →
       normalizeIdentifier (objGet r.2 "identifier") = i →
       i ≠ "" →
       toText (objGet r.2 "name_en") ≠ "" →
       normalizeIdentifier (objGet r.2 "type_identifier") ≠ "" →
       i ∈ st.seen →
       itemRowStep sn config m tm declared allHeaders attrHeaders st r =
         { st with issues := st.issues ++
             [mkIssue "error" sn (some r.1) "identifier" (dupItemMsg i)] }) := by
  constructor
  · intro w
    show (runPipeline w).items.Pairwise _
    unfold runPipeline
    dsimp only
    exact (parseItemSheets_inv _ _ _ _ _ _ _ _).2.1
  · intro sn config m tm declared allHeaders attrHeaders st r i hAny hi hne hname htype hseen
    unfold itemRowStep
    dsimp only
    rw [hi]
    rw [if_neg (by simp [hAny]), if_neg hne, if_neg hname, if_neg htype, if_pos hseen]

/-- C5 amended, witness: the duplicate branch at a concrete reserved row. -/
theorem claimC5_witness :
    itemRowStep "Item_Parents" cfgDefault [] tmapChild [] ITEM_BASE_HEADERS []
      { payload := [], seen := ["x001"], issues := [] } rowX001B =
      { payload := [], seen := ["x001"], issues :=
          [mkIssue "error" "Item_Parents" (some 3) "identifier" (dupItemMsg "x001")] } :=
  claimC5_amended.2 "Item_Parents" cfgDefault [] tmapChild [] ITEM_BASE_HEADERS []
    { payload := [], seen := ["x001"], issues := [] } rowX001B "x001"
    (by decide) rfl (by decide) (by decide) (by decide) (by decide)

/-- C9, counterexample: the x001 identifier is reserved by a dropped first
row; but the subsequent x001 row with a blank name receives the name_en
required-field error, not the duplicate-identifier error the claim
promises for every subsequent row with that identifier. -/
theorem claimC9_counterexample :
    parseItemSheet wbDupBlankName cfgDefault [] tmapChild "Item_Parents" [] [] [] =
      ([], ["x001"],
       [mkIssue "error" "Item_Parents" (some 2) "parent_identifier"
          (childTypeMsg "t1" "t0"),
        mkIssue "error" "Item_Parents" (some 3) "name_en" "name_en is required"]) :=
  rfl

/-- C9, amended: a row passing its required-field checks reserves its
normalized identifier in the shared seen set before the remaining
validations; in particular a row then dropped by the child-type parent
requirement still reserves it while emitting nothing; and every subsequent
row with that identifier that passes its own required-field checks
receives one duplicate-identifier error and is dropped, although no item
with the identifier is in the payload. -/
theorem claimC9_amended :
    (∀ (sn : String) (config : Config) (m : List (String × AttrModel))
       (tm : List (String × TypeRequest))
       (declared allHeaders attrHeaders : List String) (st : ItemState)
       (r : Nat × List (String × JVal)) (i : String),
       rowHasAnyValue r.2 allHeaders = true →
       normalizeIdentifier (objGet r.2 "identifier") = i →
       i ≠ "" →
       toText (objGet r.2 "name_en") ≠ "" →
       normalizeIdentifier (objGet r.2 "type_identifier") ≠ "" →
       i ∉ st.seen →
       (itemRowStep sn config m tm declared allHeaders attrHeaders st r).seen =
         setAdd st.seen i) ∧
    (∀ (sn : String) (config : Config) (m : List (String × AttrModel))
       (tm : List (String × TypeRequest))
       (declared allHeaders attrHeaders : List String) (st : ItemState)
       (r : Nat × List (String × JVal)) (i t q : String) (meta : TypeRequest),
       rowHasAnyValue r.2 allHeaders = true →
       normalizeIdentifier (objGet r.2 "identifier") = i →
       i ≠ "" →
       toText (objGet r.2 "name_en") ≠ "" →
       normalizeIdentifier (objGet r.2 "type_identifier") = t →
       t ≠ "" →
       i ∉ st.seen →
       lookupAssoc tm t = some meta →
       meta.parentIdentifier = some q →
       normalizeIdentifier (objGet r.2 "parent_identifier") = "" →
       itemRowStep sn config m tm declared allHeaders attrHeaders st r =
         { payload := st.payload, seen := setAdd st.seen i, issues := st.issues ++
             [mkIssue "error" sn (some r.1) "parent_identifier" (childTypeMsg t q)] }) ∧
    (∀ (sn : String) (config : Config) (m : List (String × AttrModel))
       (tm : List (String × TypeRequest))
       (declared allHeaders attrHeaders : List String) (st : ItemState)
       (r : Nat × List (String × JVal)) (i : String),
       rowHasAnyValue r.2 allHeaders = true →
       normalizeIdentifier (objGet r.2 "identifier") = i →
       i ≠ "" →
       toText (objGet r.2 "name_en") ≠ "" →
       normalizeIdentifier (objGet r.2 "type_identifier") ≠ "" →
       i ∈ st.seen →
       itemRowStep sn config m tm declared allHeaders attrHeaders st r =
         { st with issues := st.issues ++
             [mkIssue "error" sn (some r.1) "identifier" (dupItemMsg i)] }) := by
  refine ⟨?_, ?_, ?_⟩
  · intro sn config m tm declared allHeaders attrHeaders st r i hAny hi hne hname htype hseen
    unfold itemRowStep
    dsimp only
    rw [hi]
    rw [if_neg (by simp [hAny]), if_neg hne, if_neg hname, if_neg htype, if_neg hseen]
    exact itemRowAfterReserve_seen _ _ _ _ _ _ _ _ _ _ _ _
  · intro sn config m tm declared allHeaders attrHeaders st r i t q meta hAny hi hne
      hname hti htne hseen hlook hpar hq
    unfold itemRowStep
    dsimp only
    rw [hi, hti]
    rw [if_neg (by simp [hAny]), if_neg hne, if_neg hname, if_neg htne, if_neg hseen]
    unfold itemRowAfterReserve
    simp [hlook, hpar, hq]
  · intro sn config m tm declared allHeaders attrHeaders st r i hAny hi hne hname htype hseen
    unfold itemRowStep
    dsimp only
    rw [hi]
    rw [if_neg (by simp [hAny]), if_neg hne, if_neg hname, if_neg htype, if_pos hseen]

/-- C9 amended, witness: the dropped-but-reserved branch at the concrete
first x001 row. -/
theorem claimC9_witness :
    itemRowStep "Item_Parents" cfgDefault [] tmapChild [] ITEM_BASE_HEADERS []
      { payload := [], seen := [], issues := [] } rowX001A =
      { payload := [], seen := ["x001"], issues :=
          [mkIssue "error" "Item_Parents" (some 2) "parent_identifier"
            (childTypeMsg "t1" "t0")] } :=
  claimC9_amended.2.1 "Item_Parents" cfgDefault [] tmapChild [] ITEM_BASE_HEADERS []
    { payload := [], seen := [], issues := [] } rowX001A "x001" "t1" "t0"
    { identifier := "t1", name := ("en", "T1"), parentIdentifier := some "t0",
      icon := none, iconColor := none, file := none }
    (by decide) rfl (by decide) (by decide) rfl (by decide) (by decide) rfl rfl rfl

theorem foldlFix {σ α : Type} (f : σ → α → σ) (l : List α) (s : σ)
    (h : ∀ x ∈ l, ∀ t, f t x = t) : l.foldl f s = s := by
  induction l generalizing s with
  | nil => rfl
  | cons x xs ih =>
      rw [List.foldl_cons, h x (List.mem_cons_self x xs) s]
      exact ih s (fun y hy t => h y (List.mem_cons_of_mem x hy) t)

theorem coerce_blank_skip (v : JVal) (a : AttrModel) (lang : String)
    (h : toText v = "") : coerceAttributeValue v a lang = .skip := by
  unfold coerceAttributeValue
  rw [if_pos h]

theorem attrColumnStep_blank (sn : String) (rn : Nat)
    (data : List (String × JVal)) (m : List (String × AttrModel)) (lang : String)
    (acc : List (String × JVal) × List Issue) (h : String)
    (hb : isBlank (objGet data h) = true) :
    attrColumnStep sn rn data m lang acc h = acc := by
  by_cases hid : normalizeIdentifier (.jstr (strDrop h 5)) = ""
  · simp [attrColumnStep, hid]
  · simp [attrColumnStep, hid, hb]

theorem valuesJsonStep_blank (sn : String) (rn : Nat)
    (m : List (String × AttrModel)) (lang : String)
    (acc : List (String × JVal) × List Issue) (e : String × JVal)
    (hb : toText e.2 = "")
    (hk : (lookupAssoc m (normalizeIdentifier (.jstr e.1))).isSome = true) :
    valuesJsonStep sn rn m lang acc e = acc := by
  unfold valuesJsonStep
  dsimp only
  rcases Option.isSome_iff_exists.mp hk with ⟨a, ha⟩
  rw [ha]
  dsimp only
  rw [coerce_blank_skip e.2 a lang hb]

/-- C3, counterexample: an item row with values_json containing the blank
entry material maps to an emitted item whose values mapping DOES have a
material key, bound to the raw empty string copied by the initial object
spread — the claim says no entry remains at all. -/
theorem claimC3_counterexample :
    parseItemSheet wbBlankValuesJson cfgDefault amapMaterial tmapRoot
      "Item_Parents" [] [] [] = ([reqP1], ["p1"], []) := rfl

/-- C3, amended: a blank attr:-column candidate contributes nothing (no
entry, no issue); a blank values_json candidate under a known attribute
appends no issue and gets no coerced entry, but the raw key stays in the
emitted values mapping with its raw value, because the mapping starts as a
spread copy of the parsed values_json object: when every values_json entry
is blank and known and every attr: column is blank, the assembled values
mapping is exactly the raw object. -/
theorem claimC3_amended :
    (∀ (sn : String) (rn : Nat) (data : List (String × JVal))
       (m : List (String × AttrModel)) (lang : String)
       (acc : List (String × JVal) × List Issue) (h : String),
       isBlank (objGet data h) = true →
       attrColumnStep sn rn data m lang acc h = acc) ∧
    (∀ (sn : String) (rn : Nat) (m : List (String × AttrModel)) (lang : String)
       (acc : List (String × JVal) × List Issue) (e : String × JVal),
       toText e.2 = "" →
       (lookupAssoc m (normalizeIdentifier (.jstr e.1))).isSome = true →
       valuesJsonStep sn rn m lang acc e = acc) ∧
    (∀ (sn : String) (rn : Nat) (m : List (String × AttrModel)) (lang : String)
       (data : List (String × JVal)) (attrHeaders : List String)
       (valuesObj : List (String × JVal)) (issues : List Issue),
       (∀ e ∈ valuesObj, toText e.2 = "" ∧
         (lookupAssoc m (normalizeIdentifier (.jstr e.1))).isSome = true) →
       (∀ h ∈ attrHeaders, isBlank (objGet data h) = true) →
       itemValuesFold sn rn m lang data attrHeaders valuesObj issues =
         (valuesObj, issues)) := by
  refine ⟨attrColumnStep_blank, valuesJsonStep_blank, ?_⟩
  intro sn rn m lang data attrHeaders valuesObj issues hv hh
  unfold itemValuesFold
  rw [foldlFix _ valuesObj _
    (fun e he t => valuesJsonStep_blank sn rn m lang t e (hv e he).1 (hv e he).2)]
  exact foldlFix _ attrHeaders _
    (fun h hmem t => attrColumnStep_blank sn rn data m lang t h (hh h hmem))

/-- C3 amended, witness: the blank material entry survives the assembly as
its raw spread copy, with no issue. -/
theorem claimC3_witness :
    itemValuesFold "Item_Parents" 2 amapMaterial "en" [] []
      [("material", .jstr "")] [] = ([("material", .jstr "")], []) :=
  claimC3_amended.2.2 "Item_Parents" 2 amapMaterial "en" [] []
    [("material", .jstr "")] [] (by decide) (by decide)

/-- C8, counterexample: the raw-spelled key Material with a blank value
leaves only the raw key in the emitted values mapping; the claim promises
that the normalized key material is also present, bound to a coerced
value, for every key whose raw spelling differs from its normalized form. -/
theorem claimC8_counterexample :
    parseItemSheet wbRawSpelledKey cfgDefault amapMaterial tmapRoot
      "Item_Parents" [] [] [] = ([reqP2], ["p2"], []) := rfl

/-- C8, amended: for a values_json object with the single entry (k, v)
where the attribute of the normalized key nk is known and v coerces to a
value c (and every attr: column cell is blank), the assembled values
mapping is the raw spread updated at nk: when k is already in normalized
form (k = nk) the entry is overwritten in place to (k, c); otherwise both
the raw entry (k, v) and the appended normalized entry (nk, c) are
present.  Blank, unknown-attribute and failed-coercion candidates add no
normalized entry. -/
theorem claimC8_amended (sn : String) (rn : Nat)
    (m : List (String × AttrModel)) (lang : String)
    (data : List (String × JVal)) (attrHeaders : List String)
    (k : String) (v c : JVal) (a : AttrModel) (issues : List Issue)
    (hl : lookupAssoc m (normalizeIdentifier (.jstr k)) = some a)
    (hc : coerceAttributeValue v a lang = .val c)
    (hh : ∀ h ∈ attrHeaders, isBlank (objGet data h) = true) :
    itemValuesFold sn rn m lang data attrHeaders [(k, v)] issues =
      (if k = normalizeIdentifier (.jstr k) then
        [(normalizeIdentifier (.jstr k), c)]
       else [(k, v), (normalizeIdentifier (.jstr k), c)], issues) := by
  unfold itemValuesFold
  rw [List.foldl_cons, List.foldl_nil]
  unfold valuesJsonStep
  dsimp only
  rw [hl]
  dsimp only
  rw [hc]
  dsimp only
  rw [foldlFix _ attrHeaders _
    (fun h hmem t => attrColumnStep_blank sn rn data m lang t h (hh h hmem))]
  rfl

/-- C8 amended, witness: the raw spelling Material with a coercible value
yields both the raw and the normalized entry. -/
theorem claimC8_witness :
    itemValuesFold "Item_Parents" 2 amapMaterial "en" [] []
      [("Material", .jstr "x")] [] =
      ([("Material", .jstr "x"), ("material", .jstr "x")], []) :=
  claimC8_amended "Item_Parents" 2 amapMaterial "en" [] [] "Material"
    (.jstr "x") (.jstr "x")
    { identifier := "material", type := 1, languageDependent := false } []
    rfl rfl (by decide)

/-- C4, counterexample: an item row whose attr:weight cell fails FLOAT
coercion appends exactly one error issue but, contrary to the claim, the
row is NOT dropped: the item still appears in the emitted payload (with
the offending value omitted). -/
theorem claimC4_counterexample :
    parseItemSheet wbBadFloat cfgDefault amapWeight tmapRoot
      "Item_Parents" [] [] [] =
      ([reqP3], ["p3"],
       [mkIssue "error" "Item_Parents" (some 2) "attr:weight"
          "Invalid value: Expected number"]) := rfl

/-- C4, amended: in the metadata sheets (attribute groups shown here) a
required-field emptiness, a duplicate identifier, or a value-coercion
failure appends exactly one error issue for that row/field and drops the
row; in the item sheets required-field emptiness likewise drops the row,
but an attr: column value failing BOOLEAN/INTEGER/FLOAT coercion appends
exactly one error issue for that column while the item row itself is still
emitted, with only that value omitted. -/
theorem claimC4_amended :
    (∀ (config : Config) (st : GroupState) (r : Nat × List (String × JVal)),
       rowHasAnyValue r.2 GROUP_HEADERS = true →
       normalizeIdentifier (objGet r.2 "identifier") = "" →
       groupRowStep config st r = { st with issues := st.issues ++
         [mkIssue "error" SHEETS_GROUPS (some r.1) "identifier"
           "identifier is required"] }) ∧
    (∀ (config : Config) (st : GroupState) (r : Nat × List (String × JVal))
       (i : String),
       rowHasAnyValue r.2 GROUP_HEADERS = true →
       normalizeIdentifier (objGet r.2 "identifier") = i →
       i ≠ "" →
       toText (objGet r.2 "name_en") ≠ "" →
       (lookupAssoc st.byIdentifier i).isSome = true →
       groupRowStep config st r = { st with issues := st.issues ++
         [mkIssue "error" SHEETS_GROUPS (some r.1) "identifier"
           "Duplicate group identifier"] }) ∧
    (∀ (config : Config) (st : GroupState) (r : Nat × List (String × JVal))
       (i ot e : String),
       rowHasAnyValue r.2 GROUP_HEADERS = true →
       normalizeIdentifier (objGet r.2 "identifier") = i →
       i ≠ "" →
       toText (objGet r.2 "name_en") ≠ "" →
       lookupAssoc st.byIdentifier i = none →
       toText (objGet r.2 "order") = ot →
       ot ≠ "" →
       parseInteger (.jstr ot) = .error e →
       groupRowStep config st r = { st with issues := st.issues ++
         [mkIssue "error" SHEETS_GROUPS (some r.1) "order" e] }) ∧
    (∀ (sn : String) (config : Config) (m : List (String × AttrModel))
       (tm : List (String × TypeRequest))
       (declared allHeaders attrHeaders : List String) (st : ItemState)
       (r : Nat × List (String × JVal)) (i : String),
       rowHasAnyValue r.2 allHeaders = true →
       normalizeIdentifier (objGet r.2 "identifier") = i →
       i ≠ "" →
       toText (objGet r.2 "name_en") = "" →
       itemRowStep sn config m tm declared allHeaders attrHeaders st r =
         { st with issues := st.issues ++
             [mkIssue "error" sn (some r.1) "name_en" "name_en is required"] }) ∧
    (∀ (sn : String) (config : Config) (m : List (String × AttrModel))
       (tm : List (String × TypeRequest)) (declared allHeaders : List String)
       (st : ItemState) (r : Nat × List (String × JVal))
       (i n t h a e : String) (meta : TypeRequest) (am : AttrModel),
       rowHasAnyValue r.2 allHeaders = true →
       normalizeIdentifier (objGet r.2 "identifier") = i →
       i ≠ "" →
       toText (objGet r.2 "name_en") = n →
       n ≠ "" →
       normalizeIdentifier (objGet r.2 "type_identifier") = t →
       t ≠ "" →
       i ∉ st.seen →
       lookupAssoc tm t = some meta →
       meta.parentIdentifier = none →
       normalizeIdentifier (objGet r.2 "parent_identifier") = "" →
       parseJsonObject (objGet r.2 "values_json") true = .ok [] →
       parseJsonObject (objGet r.2 "channels_json") true = .ok [] →
       normalizeIdentifier (.jstr (strDrop h 5)) = a →
       a ≠ "" →
       isBlank (objGet r.2 h) = false →
       lookupAssoc m a = some am →
       coerceAttributeValue (objGet r.2 h) am config.defaultLanguage = .err e →
       itemRowStep sn config m tm declared allHeaders [h] st r =
         { payload := st.payload ++
             [{ identifier := i, typeIdentifier := t,
                name := (config.defaultLanguage, n), parentIdentifier := none,
                values := none, channels := none }],
           seen := setAdd st.seen i,
           issues := st.issues ++
             [mkIssue "error" sn (some r.1) h ("Invalid value: " ++ e)] }) := by
  refine ⟨?_, ?_, ?_, ?_, ?_⟩
  · intro config st r hAny hid
    unfold groupRowStep
    dsimp only
    rw [if_neg (by simp [hAny]), if_pos hid]
  · intro config st r i hAny hid hine hname hdup
    unfold groupRowStep
    dsimp only
    rw [hid]
    rw [if_neg (by simp [hAny]), if_neg hine, if_neg hname, if_pos hdup]
  · intro config st r i ot e hAny hid hine hname hnone hot hotne herr
    unfold groupRowStep
    dsimp only
    rw [hid, hot]
    rw [if_neg (by simp [hAny]), if_neg hine, if_neg hname,
      if_neg (by simp [hnone])]
    simp [hotne, herr, Except.map]
  · intro sn config m tm declared allHeaders attrHeaders st r i hAny hid hine hname
    unfold itemRowStep
    dsimp only
    rw [hid]
    rw [if_neg (by simp [hAny]), if_neg hine, if_pos hname]
  · intro sn config m tm declared allHeaders st r i n t h a e meta am hAny hid hine
      hname hnne hti htne hseen hlook hmp hq hvo hcho hha hane hblank ham hco
    unfold itemRowStep
    dsimp only
    rw [hid, hname, hti]
    rw [if_neg (by simp [hAny]), if_neg hine, if_neg hnne, if_neg htne, if_neg hseen]
    unfold itemRowAfterReserve
    dsimp only
    rw [hq, hlook]
    dsimp only
    rw [hmp]
    dsimp only
    unfold itemRowEmit itemValuesFold
    simp [hvo, hcho, attrColumnStep, hha, hane, hblank, ham, hco, Ne.symm hine]

/-- C4 amended, witness: the failing attr:weight coercion at a concrete
row appends one error and still emits the item. -/
theorem claimC4_witness :
    itemRowStep "Item_Parents" cfgDefault amapWeight tmapRoot []
      (ITEM_BASE_HEADERS ++ ["attr:weight"]) ["attr:weight"]
      { payload := [], seen := [], issues := [] } rowP3 =
      { payload := [reqP3], seen := ["p3"], issues :=
          [mkIssue "error" "Item_Parents" (some 2) "attr:weight"
            "Invalid value: Expected number"] } :=
  claimC4_amended.2.2.2.2 "Item_Parents" cfgDefault amapWeight tmapRoot []
    (ITEM_BASE_HEADERS ++ ["attr:weight"])
    { payload := [], seen := [], issues := [] } rowP3
    "p3" "Parent 3" "t1" "attr:weight" "weight" "Expected number"
    { identifier := "t1", name := ("en", "T1"), parentIdentifier := none,
      icon := none, iconColor := none, file := none }
    { identifier := "weight", type := 4, languageDependent := false }
    (by decide) rfl (by decide) rfl (by decide) rfl (by decide) (by decide)
    rfl rfl rfl rfl rfl rfl (by decide) rfl rfl rfl

/-- C10, witness: the self-parented type of `wbSelfType` receives the
error and stays in the payload and the lookup table. -/
theorem claimC10_witness :
    mkIssue "error" SHEETS_TYPES none "parent_identifier"
      (selfParentTypeMsg reqT1.identifier) ∈
      (parseTypes wbSelfType cfgDefault []).2.2 ∧
    lookupAssoc (parseTypes wbSelfType cfgDefault []).2.1 reqT1.identifier =
      some reqT1 := by
  have hp : (parseTypes wbSelfType cfgDefault []).1 = [reqT1] := rfl
  exact claimC10_self_parent_kept wbSelfType cfgDefault [] reqT1
    (by rw [hp]; exact List.mem_singleton.mpr rfl) rfl

/-- C1, witness at the empty workbook. -/
theorem claimC1_witness :
    (parseAndValidateImportWorkbook wbEmpty).valid =
      ((parseAndValidateImportWorkbook wbEmpty).errors.length == 0) ∧
    ((parseAndValidateImportWorkbook wbEmpty).valid = true ↔
      ∀ i ∈ (runPipeline wbEmpty).issues, i.severity ≠ "error") :=
  ⟨(claimC1_valid_is_no_errors wbEmpty).2.2.1,
   (claimC1_valid_is_no_errors wbEmpty).2.2.2⟩
